import Mathlib

/-!
A shallow embedding of the create-project-cli scaffolding tool.

Source layout:
- src/index.js                 — orchestrator (`ProjectCLI`: run, validateConfig,
                                 createProject, initGit)
- src/utils/argumentParser.js  — `ArgumentParser.parse`
- src/unnamed/part_002         — `TemplateGenerator` (generate, createDir, writeFile,
                                 the five per-template generators, generateReadme,
                                 getProjectStructure)

Filesystem effects are modelled as an ordered list of `FsAction`s; paths are the
`path.join` segment lists below the project root. The current date used by the
README (`new Date().toLocaleDateString()`) is passed in as the `today` parameter.
Subprocess outcomes of `initGit` are passed in as an `execOk` oracle.
-/

deriving instance DecidableEq for Except

namespace Scaffold

/-- Configuration record produced by the argument parser (src/utils/argumentParser.js). -/
structure Config where
  projectName : String
  template : String
  gitInit : Bool
  author : String
  deriving DecidableEq

/-- Options object passed to the template generator (`\x7b projectName, author \x7d`). -/
structure Options where
  projectName : String
  author : String
  deriving DecidableEq

/-- Package manifest object literal handed to `JSON.stringify(·, null, 2)` by the
generators. Field order mirrors the JS insertion order: name, version, description,
main, (bin — present only in the cli template), scripts, keywords, author, license. -/
structure Manifest where
  name : String
  version : String
  description : String
  main : String
  bin : Option (String × String)
  scripts : List (String × String)
  keywords : List String
  author : String
  license : String
  deriving DecidableEq

/-- Content written by `writeFile`: plain text, or a manifest object rendered with
`JSON.stringify(·, null, 2)` (see `renderManifest`). -/
inductive FileContent where
  | text : String → FileContent
  | manifest : Manifest → FileContent
  deriving DecidableEq

/-- One filesystem side effect of a generation run: `createDir` (fs.mkdirSync) or
`writeFile` (fs.writeFileSync), with the path as its segment list. -/
inductive FsAction where
  | mkdir : List String → FsAction
  | write : List String → FileContent → FsAction
  deriving DecidableEq

/-- JS `a || b` on strings: the empty string is the only falsy string. -/
def jsOr (a b : String) : String := if a = "" then b else a

/-- JS `s.startsWith(pre)`, written over character lists so that proofs can
evaluate it. -/
def jsStartsWith (s pre : String) : Bool := pre.toList.isPrefixOf s.toList

/-- JS `s.toLowerCase()` as applied to template names (ASCII lowering), written
over character lists so that proofs can evaluate it. -/
def jsToLower (s : String) : String := String.mk (s.toList.map Char.toLower)

/-- Escapes one character as JSON.stringify escapes it inside a string literal. -/
def jsonEscChar (c : Char) : String :=
  if c = '"' then ("\\\"")
  else if c = '\\' then ("\\\\")
  else if c = '\n' then ("\\n")
  else if c = '\t' then ("\\t")
  else if c = '\r' then ("\\r")
  else if c.toNat < 32 then
    ("\\u" ++ String.mk (List.replicate (4 - (Nat.toDigits 16 c.toNat).length) '0') ++
      String.mk (Nat.toDigits 16 c.toNat))
  else String.singleton c

/-- Renders a JSON string literal, as JSON.stringify does. -/
def jsonQuote (s : String) : String :=
  "\"" ++ String.join (s.toList.map jsonEscChar) ++ "\""

/-- Renders a flat string-to-string object nested one level deep inside the manifest
(the `scripts` and `bin` fields), with JSON.stringify's 2-space indentation. -/
def renderPairsObj (pairs : List (String × String)) : String :=
  match pairs with
  | [] => ("\x7b\x7d")
  | _ =>
    ("\x7b\n" ++
      String.intercalate (",\n")
        (pairs.map (fun p => ("    " ++ jsonQuote p.1 ++ ": " ++ jsonQuote p.2))) ++
      "\n  \x7d")

/-- Renders a string array one level deep (the `keywords` field). -/
def renderStrArr (xs : List String) : String :=
  match xs with
  | [] => ("[]")
  | _ =>
    ("[\n" ++ String.intercalate (",\n") (xs.map (fun x => ("    " ++ jsonQuote x))) ++
      "\n  ]")

/-- Renders a manifest exactly as `JSON.stringify(obj, null, 2)` renders the object
literals of templateGenerator.js. -/
def renderManifest (m : Manifest) : String :=
  "\x7b\n" ++
  String.intercalate (",\n")
    (["  \"name\": " ++ jsonQuote m.name,
      "  \"version\": " ++ jsonQuote m.version,
      "  \"description\": " ++ jsonQuote m.description,
      "  \"main\": " ++ jsonQuote m.main] ++
     (match m.bin with
      | none => []
      | some kv => ["  \"bin\": " ++ renderPairsObj [kv]]) ++
     ["  \"scripts\": " ++ renderPairsObj m.scripts,
      "  \"keywords\": " ++ renderStrArr m.keywords,
      "  \"author\": " ++ jsonQuote m.author,
      "  \"license\": " ++ jsonQuote m.license]) ++
  "\n\x7d"

/-- Resolves a `FileContent` to the byte string handed to `fs.writeFileSync`. -/
def FileContent.render : FileContent → String
  | .text s => s
  | .manifest m => renderManifest m

/-- Manifest of the basic template (part_002, lines 88-104). -/
def basicManifest (pn author : String) : Manifest :=
  { name := pn
    version := "1.0.0"
    description := pn ++ " - A basic project"
    main := "src/index.js"
    bin := none
    scripts := [("start", "node src/index.js"),
                ("test", "echo \"Error: no test specified\" && exit 1")]
    keywords := []
    author := jsOr author ("")
    license := "MIT" }

/-- Manifest of the web template (part_002, lines 245-260). -/
def webManifest (pn author : String) : Manifest :=
  { name := pn
    version := "1.0.0"
    description := pn ++ " - A web application"
    main := "src/index.html"
    bin := none
    scripts := [("start", "echo \"Open src/index.html in your browser\"")]
    keywords := ["web", "html", "css", "javascript"]
    author := jsOr author ("")
    license := "MIT" }

/-- Manifest of the api template (part_002, lines 409-425). -/
def apiManifest (pn author : String) : Manifest :=
  { name := pn
    version := "1.0.0"
    description := pn ++ " - REST API"
    main := "src/server.js"
    bin := none
    scripts := [("start", "node src/server.js"), ("dev", "node src/server.js")]
    keywords := ["api", "rest", "backend"]
    author := jsOr author ("")
    license := "MIT" }

/-- Manifest of the cli template (part_002, lines 529-547): the `bin` entry is keyed
by the computed property `[projectName]` and points at `./src/cli.js`. -/
def cliManifest (pn author : String) : Manifest :=
  { name := pn
    version := "1.0.0"
    description := pn ++ " - Command-line tool"
    main := "src/cli.js"
    bin := some (pn, "./src/cli.js")
    scripts := [("start", "node src/cli.js")]
    keywords := ["cli", "command-line", "tool"]
    author := jsOr author ("")
    license := "MIT" }

/-- Manifest written to frontend/package.json by the fullstack template
(part_002, lines 1051-1067). -/
def fullstackFrontendManifest (pn author : String) : Manifest :=
  { name := pn ++ "-frontend"
    version := "1.0.0"
    description := pn ++ " - Frontend Application"
    main := "server.js"
    bin := none
    scripts := [("dev", "node server.js"), ("start", "node server.js")]
    keywords := ["frontend", "fullstack"]
    author := jsOr author ("")
    license := "MIT" }

/-- Manifest written to backend/package.json by the fullstack template
(part_002, lines 1372-1388). -/
def fullstackBackendManifest (pn author : String) : Manifest :=
  { name := pn ++ "-backend"
    version := "1.0.0"
    description := pn ++ " - Backend API"
    main := "server.js"
    bin := none
    scripts := [("dev", "node server.js"), ("start", "node server.js")]
    keywords := ["backend", "api", "fullstack"]
    author := jsOr author ("")
    license := "MIT" }
def templateDescription (template : String) : String :=
  if template = "basic" then
    ("A simple project structure with source code and utilities.")
  else
  if template = "web" then
    ("A web application with HTML, CSS, and JavaScript.")
  else
  if template = "api" then
    ("A REST API server with routes and controllers.")
  else
  if template = "cli" then
    ("A command-line tool for terminal usage.")
  else
  if template = "fullstack" then
    ("A full-stack application with React frontend and Node.js backend.")
  else
    "undefined"

def runInstruction (template : String) : String :=
  if template = "basic" then
    ("```bash\n" ++
    "node src/index.js\n" ++
    "```")
  else
  if template = "web" then
    ("```bash\n" ++
    "# Open sTerminal 1 - Start Backend\n" ++
    "cd backend\n" ++
    "npm run dev\n" ++
    "\n" ++
    "# Terminal 2 - Start Frontend\n" ++
    "cd frontend\n" ++
    "npm run dev\n" ++
    "\n" ++
    "# Open http://localhost:3000/src/\n" ++
    "```")
  else
  if template = "api" then
    ("```bash\n" ++
    "node src/server.js\n" ++
    "# API will be available at http://localhost:3000\n" ++
    "```")
  else
  if template = "cli" then
    ("```bash\n" ++
    "node src/cli.js --help\n" ++
    "```")
  else
  if template = "fullstack" then
    ("```bash\n" ++
    "# Start Backend\n" ++
    "cd backend\n" ++
    "node server.js\n" ++
    "\n" ++
    "# In another terminal, start Frontend\n" ++
    "cd frontend\n" ++
    "open public/index.html in browser\n" ++
    "```")
  else
    "undefined"

/-- Embeds `getProjectStructure` (src/unnamed/part_002): the ASCII tree shown in the
generated README; unknown templates fall back to the basic tree, as in the source
(`structures[template] || structures.basic`). -/
def getProjectStructure (template : String) : String :=
  if template = "basic" then
    (template ++
    "-project/\n" ++
    "â”œâ”€â”€ src/\n" ++
    "â”‚   â””â”€â”€ index.js\n" ++
    "â”œâ”€â”€ utils/\n" ++
    "â”‚   â””â”€â”€ helpers.js\n" ++
    "â”œâ”€â”€ tests/\n" ++
    "â”œâ”€â”€ package.json\n" ++
    "â”œâ”€â”€ .gitignore\n" ++
    "â””â”€â”€ README.md")
  else
  if template = "web" then
    (template ++
    "-project/\n" ++
    "â”œâ”€â”€ src/\n" ++
    "â”‚   â”œâ”€â”€ index.html\n" ++
    "â”‚   â”œâ”€â”€ css/\n" ++
    "â”‚   â”‚   â””â”€â”€ style.css\n" ++
    "â”‚   â””â”€â”€ js/\n" ++
    "â”‚       â””â”€â”€ app.js\n" ++
    "â”œâ”€â”€ public/\n" ++
    "â”œâ”€â”€ assets/\n" ++
    "â”œâ”€â”€ package.json\n" ++
    "â”œâ”€â”€ .gitignore\n" ++
    "â””â”€â”€ README.md")
  else
  if template = "api" then
    (template ++
    "-project/\n" ++
    "â”œâ”€â”€ src/\n" ++
    "â”‚   â”œâ”€â”€ server.js\n" ++
    "â”‚   â”œâ”€â”€ routes/\n" ++
    "â”‚   â”‚   â””â”€â”€ index.js\n" ++
    "â”‚   â”œâ”€â”€ controllers/\n" ++
    "â”‚   â”‚   â””â”€â”€ index.js\n" ++
    "â”‚   â”œâ”€â”€ models/\n" ++
    "â”‚   â””â”€â”€ middleware/\n" ++
    "â”œâ”€â”€ config/\n" ++
    "â”‚   â””â”€â”€ config.js\n" ++
    "â”œâ”€â”€ utils/\n" ++
    "â”œâ”€â”€ package.json\n" ++
    "â”œâ”€â”€ .gitignore\n" ++
    "â””â”€â”€ README.md")
  else
  if template = "cli" then
    (template ++
    "-project/\n" ++
    "â”œâ”€â”€ src/\n" ++
    "â”‚   â””â”€â”€ cli.js\n" ++
    "â”œâ”€â”€ commands/\n" ++
    "â”‚   â””â”€â”€ index.js\n" ++
    "â”œâ”€â”€ utils/\n" ++
    "â”œâ”€â”€ package.json\n" ++
    "â”œâ”€â”€ .gitignore\n" ++
    "â””â”€â”€ README.md")
  else
  if template = "fullstack" then
    (template ++
    "-project/\n" ++
    "â”œâ”€â”€ frontend/\n" ++
    "â”‚   â”œâ”€â”€ src/\n" ++
    "â”‚   â”‚   â”œâ”€â”€ components/\n" ++
    "â”‚   â”‚   â”œâ”€â”€ pages/\n" ++
    "â”‚   â”‚   â”œâ”€â”€ styles/\n" ++
    "â”‚   â”‚   â””â”€â”€ App.js\n" ++
    "â”‚   â”œâ”€â”€ public/\n" ++
    "â”‚   â””â”€â”€ package.json\n" ++
    "â”œâ”€â”€ backend/\n" ++
    "â”‚   â”œâ”€â”€ routes/\n" ++
    "â”‚   â”œâ”€â”€ controllers/\n" ++
    "â”‚   â”œâ”€â”€ models/\n" ++
    "â”‚   â”œâ”€â”€ middleware/\n" ++
    "â”‚   â”œâ”€â”€ config/\n" ++
    "â”‚   â”œâ”€â”€ server.js\n" ++
    "â”‚   â”œâ”€â”€ .env\n" ++
    "â”‚   â””â”€â”€ package.json\n" ++
    "â””â”€â”€ README.md")
  else
    (template ++
    "-project/\n" ++
    "â”œâ”€â”€ src/\n" ++
    "â”‚   â””â”€â”€ index.js\n" ++
    "â”œâ”€â”€ utils/\n" ++
    "â”‚   â””â”€â”€ helpers.js\n" ++
    "â”œâ”€â”€ tests/\n" ++
    "â”œâ”€â”€ package.json\n" ++
    "â”œâ”€â”€ .gitignore\n" ++
    "â””â”€â”€ README.md")

/-- Embeds `generateReadme` (src/unnamed/part_002): the shared README routine;
`today` stands for `new Date().toLocaleDateString()`. -/
def generateReadme (pn template author today : String) : String :=
  ("# " ++
  pn ++
  "\n" ++
  "\n" ++
  (templateDescription template) ++
  "\n" ++
  "\n" ++
  "## Project Structure\n" ++
  "\n" ++
  "```\n" ++
  (getProjectStructure template) ++
  "\n" ++
  "```\n" ++
  "\n" ++
  "## Getting Started\n" ++
  "\n" ++
  "### Prerequisites\n" ++
  "- Node.js (v14 or higher)\n" ++
  "\n" ++
  "### Installation\n" ++
  "\n" ++
  "1. Navigate to the project directory:\n" ++
  "   ```bash\n" ++
  "   cd " ++
  pn ++
  "\n" ++
  "   ```\n" ++
  "\n" ++
  "2. Install dependencies (if any):\n" ++
  "   ```bash\n" ++
  "   npm install\n" ++
  "   ```\n" ++
  "\n" ++
  "### Running the Project\n" ++
  "\n" ++
  (runInstruction template) ++
  "\n" ++
  "\n" ++
  "## Features\n" ++
  "\n" ++
  "- Clean and organized project structure\n" ++
  "- Standard libraries only (no external dependencies required)\n" ++
  "- Ready-to-use boilerplate code\n" ++
  "- Comprehensive comments and documentation\n" ++
  "\n" ++
  "## Author\n" ++
  "\n" ++
  (jsOr author ("Your Name")) ++
  "\n" ++
  "\n" ++
  "## License\n" ++
  "\n" ++
  "This project is licensed under the MIT License.\n" ++
  "\n" ++
  "## Generated By\n" ++
  "\n" ++
  "This project was scaffolded using [create-project-cli](https://github.com/yourusername/create-project-cli) - A tool to quickly generate project structures.\n" ++
  "\n" ++
  "---\n" ++
  "\n" ++
  "*Created on " ++
  today ++
  "*\n")

/-- Embeds `generateBasicTemplate` of src/unnamed/part_002 (templateGenerator.js): the
ordered directory creations and file writes for the "basic" template,
with paths relative to the project root. -/
def generateBasicTemplate (opts : Options) (today : String) : List FsAction :=
  let pn := opts.projectName
  let author := opts.author
  [
    FsAction.mkdir (["src"]),
    FsAction.mkdir (["utils"]),
    FsAction.mkdir (["tests"]),
    FsAction.write (["src", "index.js"])
      (FileContent.text ("// " ++
      pn ++
      "\n" ++
      "// Main entry point\n" ++
      "\n" ++
      "function main() \x7b\n" ++
      "  console.log('Hello from " ++
      pn ++
      "!');\n" ++
      "\x7d\n" ++
      "\n" ++
      "main();\n")),
    FsAction.write (["utils", "helpers.js"])
      (FileContent.text ("// Helper functions for " ++
      pn ++
      "\n" ++
      "\n" ++
      "function formatDate(date) \x7b\n" ++
      "  return date.toLocaleDateString();\n" ++
      "\x7d\n" ++
      "\n" ++
      "function capitalizeString(str) \x7b\n" ++
      "  return str.charAt(0).toUpperCase() + str.slice(1);\n" ++
      "\x7d\n" ++
      "\n" ++
      "module.exports = \x7b\n" ++
      "  formatDate,\n" ++
      "  capitalizeString\n" ++
      "\x7d;\n")),
    FsAction.write (["README.md"])
      (FileContent.text (generateReadme pn ("basic") author today)),
    FsAction.write ([".gitignore"])
      (FileContent.text ("node_modules/\n" ++
      "*.log\n" ++
      ".DS_Store\n" ++
      ".env\n")),
    FsAction.write (["package.json"])
      (FileContent.manifest (basicManifest pn author))
  ]

/-- Embeds `generateWebTemplate` of src/unnamed/part_002 (templateGenerator.js): the
ordered directory creations and file writes for the "web" template,
with paths relative to the project root. -/
def generateWebTemplate (opts : Options) (today : String) : List FsAction :=
  let pn := opts.projectName
  let author := opts.author
  [
    FsAction.mkdir (["src"]),
    FsAction.mkdir (["src", "css"]),
    FsAction.mkdir (["src", "js"]),
    FsAction.mkdir (["public"]),
    FsAction.mkdir (["assets"]),
    FsAction.write (["src", "index.html"])
      (FileContent.text ("<!DOCTYPE html>\n" ++
      "<html lang=\"en\">\n" ++
      "<head>\n" ++
      "  <meta charset=\"UTF-8\">\n" ++
      "  <meta name=\"viewport\" content=\"width=device-width, initial-scale=1.0\">\n" ++
      "  <title>" ++
      pn ++
      "</title>\n" ++
      "  <link rel=\"stylesheet\" href=\"css/style.css\">\n" ++
      "</head>\n" ++
      "<body>\n" ++
      "  <div class=\"container\">\n" ++
      "    <header>\n" ++
      "      <h1>Welcome to " ++
      pn ++
      "</h1>\n" ++
      "    </header>\n" ++
      "    <main>\n" ++
      "      <p>Your web project is ready to go!</p>\n" ++
      "      <button id=\"actionBtn\">Click Me</button>\n" ++
      "    </main>\n" ++
      "    <footer>\n" ++
      "      <p>&copy; 2026 " ++
      (jsOr author ("Your Name")) ++
      ". All rights reserved.</p>\n" ++
      "    </footer>\n" ++
      "  </div>\n" ++
      "  <script src=\"js/app.js\"></script>\n" ++
      "</body>\n" ++
      "</html>\n")),
    FsAction.write (["src", "css", "style.css"])
      (FileContent.text ("/* " ++
      pn ++
      " Styles */\n" ++
      "\n" ++
      "* \x7b\n" ++
      "  margin: 0;\n" ++
      "  padding: 0;\n" ++
      "  box-sizing: border-box;\n" ++
      "\x7d\n" ++
      "\n" ++
      "body \x7b\n" ++
      "  font-family: 'Segoe UI', Tahoma, Geneva, Verdana, sans-serif;\n" ++
      "  line-height: 1.6;\n" ++
      "  background: linear-gradient(135deg, #667eea 0%, #764ba2 100%);\n" ++
      "  min-height: 100vh;\n" ++
      "  display: flex;\n" ++
      "  justify-content: center;\n" ++
      "  align-items: center;\n" ++
      "\x7d\n" ++
      "\n" ++
      ".container \x7b\n" ++
      "  background: white;\n" ++
      "  padding: 2rem;\n" ++
      "  border-radius: 10px;\n" ++
      "  box-shadow: 0 10px 30px rgba(0, 0, 0, 0.3);\n" ++
      "  max-width: 600px;\n" ++
      "  width: 90%;\n" ++
      "\x7d\n" ++
      "\n" ++
      "header h1 \x7b\n" ++
      "  color: #333;\n" ++
      "  margin-bottom: 1rem;\n" ++
      "  text-align: center;\n" ++
      "\x7d\n" ++
      "\n" ++
      "main \x7b\n" ++
      "  padding: 2rem 0;\n" ++
      "  text-align: center;\n" ++
      "\x7d\n" ++
      "\n" ++
      "button \x7b\n" ++
      "  background: #667eea;\n" ++
      "  color: white;\n" ++
      "  border: none;\n" ++
      "  padding: 12px 30px;\n" ++
      "  font-size: 16px;\n" ++
      "  border-radius: 5px;\n" ++
      "  cursor: pointer;\n" ++
      "  transition: background 0.3s;\n" ++
      "  margin-top: 1rem;\n" ++
      "\x7d\n" ++
      "\n" ++
      "button:hover \x7b\n" ++
      "  background: #764ba2;\n" ++
      "\x7d\n" ++
      "\n" ++
      "footer \x7b\n" ++
      "  text-align: center;\n" ++
      "  color: #666;\n" ++
      "  font-size: 14px;\n" ++
      "  margin-top: 2rem;\n" ++
      "\x7d\n")),
    FsAction.write (["src", "js", "app.js"])
      (FileContent.text ("// " ++
      pn ++
      " - Main JavaScript\n" ++
      "\n" ++
      "document.addEventListener('DOMContentLoaded', () => \x7b\n" ++
      "  const btn = document.getElementById('actionBtn');\n" ++
      "  \n" ++
      "  btn.addEventListener('click', () => \x7b\n" ++
      "    alert('Hello from " ++
      pn ++
      "! ğŸš€');\n" ++
      "  \x7d);\n" ++
      "\n" ++
      "  console.log('" ++
      pn ++
      " loaded successfully!');\n" ++
      "\x7d);\n")),
    FsAction.write (["README.md"])
      (FileContent.text (generateReadme pn ("web") author today)),
    FsAction.write ([".gitignore"])
      (FileContent.text ("node_modules/\n" ++
      "*.log\n" ++
      ".DS_Store\n" ++
      "dist/\n" ++
      "build/\n")),
    FsAction.write (["package.json"])
      (FileContent.manifest (webManifest pn author))
  ]

/-- Embeds `generateApiTemplate` of src/unnamed/part_002 (templateGenerator.js): the
ordered directory creations and file writes for the "api" template,
with paths relative to the project root. -/
def generateApiTemplate (opts : Options) (today : String) : List FsAction :=
  let pn := opts.projectName
  let author := opts.author
  [
    FsAction.mkdir (["src"]),
    FsAction.mkdir (["src", "routes"]),
    FsAction.mkdir (["src", "controllers"]),
    FsAction.mkdir (["src", "models"]),
    FsAction.mkdir (["src", "middleware"]),
    FsAction.mkdir (["utils"]),
    FsAction.mkdir (["config"]),
    FsAction.write (["src", "server.js"])
      (FileContent.text ("// " ++
      pn ++
      " - API Server\n" ++
      "const http = require('http');\n" ++
      "const url = require('url');\n" ++
      "const routes = require('./routes');\n" ++
      "\n" ++
      "const PORT = process.env.PORT || 3000;\n" ++
      "\n" ++
      "const server = http.createServer((req, res) => \x7b\n" ++
      "  const parsedUrl = url.parse(req.url, true);\n" ++
      "  const path = parsedUrl.pathname;\n" ++
      "  const method = req.method;\n" ++
      "\n" ++
      "  // Set CORS headers\n" ++
      "  res.setHeader('Access-Control-Allow-Origin', '*');\n" ++
      "  res.setHeader('Access-Control-Allow-Methods', 'GET, POST, PUT, DELETE');\n" ++
      "  res.setHeader('Content-Type', 'application/json');\n" ++
      "\n" ++
      "  // Route handling\n" ++
      "  routes.handleRequest(path, method, req, res);\n" ++
      "\x7d);\n" ++
      "\n" ++
      "server.listen(PORT, () => \x7b\n" ++
      "  console.log(`ğŸš€ " ++
      pn ++
      " API server running on http://localhost:$\x7bPORT\x7d`);\n" ++
      "\x7d);\n")),
    FsAction.write (["src", "routes", "index.js"])
      (FileContent.text ("// Routes handler\n" ++
      "const controllers = require('../controllers');\n" ++
      "\n" ++
      "function handleRequest(path, method, req, res) \x7b\n" ++
      "  // API root\n" ++
      "  if (path === '/' && method === 'GET') \x7b\n" ++
      "    res.writeHead(200);\n" ++
      "    res.end(JSON.stringify(\x7b\n" ++
      "      message: 'Welcome to the API',\n" ++
      "      version: '1.0.0',\n" ++
      "      endpoints: \x7b\n" ++
      "        '/api/status': 'GET - Check API status',\n" ++
      "        '/api/data': 'GET - Get data'\n" ++
      "      \x7d\n" ++
      "    \x7d));\n" ++
      "    return;\n" ++
      "  \x7d\n" ++
      "\n" ++
      "  // Status endpoint\n" ++
      "  if (path === '/api/status' && method === 'GET') \x7b\n" ++
      "    controllers.getStatus(req, res);\n" ++
      "    return;\n" ++
      "  \x7d\n" ++
      "\n" ++
      "  // Data endpoint\n" ++
      "  if (path === '/api/data' && method === 'GET') \x7b\n" ++
      "    controllers.getData(req, res);\n" ++
      "    return;\n" ++
      "  \x7d\n" ++
      "\n" ++
      "  // 404 Not Found\n" ++
      "  res.writeHead(404);\n" ++
      "  res.end(JSON.stringify(\x7b error: 'Route not found' \x7d));\n" ++
      "\x7d\n" ++
      "\n" ++
      "module.exports = \x7b handleRequest \x7d;\n")),
    FsAction.write (["src", "controllers", "index.js"])
      (FileContent.text ("// Controllers for API endpoints\n" ++
      "\n" ++
      "function getStatus(req, res) \x7b\n" ++
      "  res.writeHead(200);\n" ++
      "  res.end(JSON.stringify(\x7b\n" ++
      "    status: 'OK',\n" ++
      "    timestamp: new Date().toISOString(),\n" ++
      "    uptime: process.uptime()\n" ++
      "  \x7d));\n" ++
      "\x7d\n" ++
      "\n" ++
      "function getData(req, res) \x7b\n" ++
      "  const sampleData = \x7b\n" ++
      "    items: [\n" ++
      "      \x7b id: 1, name: 'Item 1', value: 100 \x7d,\n" ++
      "      \x7b id: 2, name: 'Item 2', value: 200 \x7d,\n" ++
      "      \x7b id: 3, name: 'Item 3', value: 300 \x7d\n" ++
      "    ],\n" ++
      "    total: 3\n" ++
      "  \x7d;\n" ++
      "\n" ++
      "  res.writeHead(200);\n" ++
      "  res.end(JSON.stringify(sampleData));\n" ++
      "\x7d\n" ++
      "\n" ++
      "module.exports = \x7b\n" ++
      "  getStatus,\n" ++
      "  getData\n" ++
      "\x7d;\n")),
    FsAction.write (["config", "config.js"])
      (FileContent.text ("// Configuration settings\n" ++
      "module.exports = \x7b\n" ++
      "  port: process.env.PORT || 3000,\n" ++
      "  environment: process.env.NODE_ENV || 'development',\n" ++
      "  apiVersion: '1.0.0'\n" ++
      "\x7d;\n")),
    FsAction.write (["README.md"])
      (FileContent.text (generateReadme pn ("api") author today)),
    FsAction.write ([".gitignore"])
      (FileContent.text ("node_modules/\n" ++
      "*.log\n" ++
      ".DS_Store\n" ++
      ".env\n")),
    FsAction.write (["package.json"])
      (FileContent.manifest (apiManifest pn author))
  ]

/-- Embeds `generateCliTemplate` of src/unnamed/part_002 (templateGenerator.js): the
ordered directory creations and file writes for the "cli" template,
with paths relative to the project root. -/
def generateCliTemplate (opts : Options) (today : String) : List FsAction :=
  let pn := opts.projectName
  let author := opts.author
  [
    FsAction.mkdir (["src"]),
    FsAction.mkdir (["utils"]),
    FsAction.mkdir (["commands"]),
    FsAction.write (["src", "cli.js"])
      (FileContent.text ("#!/usr/bin/env node\n" ++
      "// " ++
      pn ++
      " - CLI Tool\n" ++
      "\n" ++
      "const commands = require('../commands');\n" ++
      "\n" ++
      "function main() \x7b\n" ++
      "  const args = process.argv.slice(2);\n" ++
      "\n" ++
      "  if (args.length === 0 || args.includes('--help') || args.includes('-h')) \x7b\n" ++
      "    showHelp();\n" ++
      "    return;\n" ++
      "  \x7d\n" ++
      "\n" ++
      "  const command = args[0];\n" ++
      "\n" ++
      "  switch (command) \x7b\n" ++
      "    case 'hello':\n" ++
      "      commands.hello(args.slice(1));\n" ++
      "      break;\n" ++
      "    case 'version':\n" ++
      "      commands.version();\n" ++
      "      break;\n" ++
      "    default:\n" ++
      "      console.error(`Unknown command: $\x7bcommand\x7d`);\n" ++
      "      console.log('Use --help to see available commands');\n" ++
      "      process.exit(1);\n" ++
      "  \x7d\n" ++
      "\x7d\n" ++
      "\n" ++
      "function showHelp() \x7b\n" ++
      "  console.log(`\n" ++
      "â•”â•â•â•â•â•â•â•â•â•â•â•â•â•â•â•â•â•â•â•â•â•â•â•â•â•â•â•â•â•â•â•â•â•â•â•â•â•â•â•â•â•—\n" ++
      "â•‘         " ++
      (pn.toUpper) ++
      "                â•‘\n" ++
      "â•šâ•â•â•â•â•â•â•â•â•â•â•â•â•â•â•â•â•â•â•â•â•â•â•â•â•â•â•â•â•â•â•â•â•â•â•â•â•â•â•â•â•\n" ++
      "\n" ++
      "USAGE:\n" ++
      "  " ++
      pn ++
      " <command> [options]\n" ++
      "\n" ++
      "COMMANDS:\n" ++
      "  hello [name]    Say hello to someone\n" ++
      "  version         Show version information\n" ++
      "  --help, -h      Show this help message\n" ++
      "\n" ++
      "EXAMPLES:\n" ++
      "  " ++
      pn ++
      " hello John\n" ++
      "  " ++
      pn ++
      " version\n" ++
      "  `);\n" ++
      "\x7d\n" ++
      "\n" ++
      "main();\n")),
    FsAction.write (["commands", "index.js"])
      (FileContent.text ("// Command implementations\n" ++
      "\n" ++
      "function hello(args) \x7b\n" ++
      "  const name = args[0] || 'World';\n" ++
      "  console.log(`Hello, $\x7bname\x7d! ğŸ‘‹`);\n" ++
      "\x7d\n" ++
      "\n" ++
      "function version() \x7b\n" ++
      "  const pkg = require('../package.json');\n" ++
      "  console.log(`$\x7bpkg.name\x7d v$\x7bpkg.version\x7d`);\n" ++
      "\x7d\n" ++
      "\n" ++
      "module.exports = \x7b\n" ++
      "  hello,\n" ++
      "  version\n" ++
      "\x7d;\n")),
    FsAction.write (["README.md"])
      (FileContent.text (generateReadme pn ("cli") author today)),
    FsAction.write ([".gitignore"])
      (FileContent.text ("node_modules/\n" ++
      "*.log\n" ++
      ".DS_Store\n")),
    FsAction.write (["package.json"])
      (FileContent.manifest (cliManifest pn author))
  ]

/-- Embeds `generateFullstackTemplate` of src/unnamed/part_002 (templateGenerator.js): the
ordered directory creations and file writes for the "fullstack" template,
with paths relative to the project root. -/
def generateFullstackTemplate (opts : Options) (today : String) : List FsAction :=
  let pn := opts.projectName
  let author := opts.author
  [
    FsAction.mkdir (["frontend"]),
    FsAction.mkdir (["frontend", "src"]),
    FsAction.mkdir (["frontend", "src", "components"]),
    FsAction.mkdir (["frontend", "src", "pages"]),
    FsAction.mkdir (["frontend", "src", "styles"]),
    FsAction.mkdir (["frontend", "src", "services"]),
    FsAction.mkdir (["frontend", "public"]),
    FsAction.write (["frontend", "src", "App.js"])
      (FileContent.text ("// " ++
      pn ++
      " - Frontend App\n" ++
      "import \x7b fetchUsers, createUser \x7d from './services/api.js';\n" ++
      "\n" ++
      "class App \x7b\n" ++
      "  constructor() \x7b\n" ++
      "    this.apiUrl = 'http://localhost:5000';\n" ++
      "    this.init();\n" ++
      "  \x7d\n" ++
      "\n" ++
      "  async init() \x7b\n" ++
      "    console.log('" ++
      pn ++
      " Frontend Loaded!');\n" ++
      "    this.setupEventListeners();\n" ++
      "    await this.loadUsers();\n" ++
      "  \x7d\n" ++
      "\n" ++
      "  setupEventListeners() \x7b\n" ++
      "    const form = document.getElementById('userForm');\n" ++
      "    if (form) \x7b\n" ++
      "      form.addEventListener('submit', (e) => this.handleSubmit(e));\n" ++
      "    \x7d\n" ++
      "\n" ++
      "    const refreshBtn = document.getElementById('refreshBtn');\n" ++
      "    if (refreshBtn) \x7b\n" ++
      "      refreshBtn.addEventListener('click', () => this.loadUsers());\n" ++
      "    \x7d\n" ++
      "  \x7d\n" ++
      "\n" ++
      "  async loadUsers() \x7b\n" ++
      "    try \x7b\n" ++
      "      const users = await fetchUsers();\n" ++
      "      this.displayUsers(users);\n" ++
      "    \x7d catch (error) \x7b\n" ++
      "      console.error('Error loading users:', error);\n" ++
      "      document.getElementById('userList').innerHTML = \n" ++
      "        '<p class=\"error\">Failed to load users. Is backend running?</p>';\n" ++
      "    \x7d\n" ++
      "  \x7d\n" ++
      "\n" ++
      "  displayUsers(users) \x7b\n" ++
      "    const userList = document.getElementById('userList');\n" ++
      "    if (users.length === 0) \x7b\n" ++
      "      userList.innerHTML = '<p>No users found. Add one below!</p>';\n" ++
      "      return;\n" ++
      "    \x7d\n" ++
      "\n" ++
      "    userList.innerHTML = users.map(user => `\n" ++
      "      <div class=\"user-card\">\n" ++
      "        <h3>$\x7buser.name\x7d</h3>\n" ++
      "        <p>$\x7buser.email\x7d</p>\n" ++
      "        <small>ID: $\x7buser.id\x7d</small>\n" ++
      "      </div>\n" ++
      "    `).join('');\n" ++
      "  \x7d\n" ++
      "\n" ++
      "  async handleSubmit(e) \x7b\n" ++
      "    e.preventDefault();\n" ++
      "    const name = document.getElementById('name').value;\n" ++
      "    const email = document.getElementById('email').value;\n" ++
      "\n" ++
      "    try \x7b\n" ++
      "      await createUser(\x7b name, email \x7d);\n" ++
      "      e.target.reset();\n" ++
      "      await this.loadUsers();\n" ++
      "      alert('User added successfully!');\n" ++
      "    \x7d catch (error) \x7b\n" ++
      "      alert('Failed to add user: ' + error.message);\n" ++
      "    \x7d\n" ++
      "  \x7d\n" ++
      "\x7d\n" ++
      "\n" ++
      "// Initialize app when DOM is ready\n" ++
      "document.addEventListener('DOMContentLoaded', () => \x7b\n" ++
      "  new App();\n" ++
      "\x7d);\n")),
    FsAction.write (["frontend", "src", "services", "api.js"])
      (FileContent.text ("// API Service - Connects to Backend\n" ++
      "const API_URL = 'http://localhost:5000/api';\n" ++
      "\n" ++
      "export async function fetchUsers() \x7b\n" ++
      "  const response = await fetch(`$\x7bAPI_URL\x7d/users`);\n" ++
      "  if (!response.ok) throw new Error('Failed to fetch users');\n" ++
      "  return response.json();\n" ++
      "\x7d\n" ++
      "\n" ++
      "export async function createUser(userData) \x7b\n" ++
      "  const response = await fetch(`$\x7bAPI_URL\x7d/users`, \x7b\n" ++
      "    method: 'POST',\n" ++
      "    headers: \x7b\n" ++
      "      'Content-Type': 'application/json'\n" ++
      "    \x7d,\n" ++
      "    body: JSON.stringify(userData)\n" ++
      "  \x7d);\n" ++
      "  if (!response.ok) throw new Error('Failed to create user');\n" ++
      "  return response.json();\n" ++
      "\x7d\n" ++
      "\n" ++
      "export async function deleteUser(id) \x7b\n" ++
      "  const response = await fetch(`$\x7bAPI_URL\x7d/users/$\x7bid\x7d`, \x7b\n" ++
      "    method: 'DELETE'\n" ++
      "  \x7d);\n" ++
      "  if (!response.ok) throw new Error('Failed to delete user');\n" ++
      "  return response.json();\n" ++
      "\x7d\n")),
    FsAction.write (["frontend", "src", "components", "Header.js"])
      (FileContent.text ("// Header Component\n" ++
      "export function createHeader() \x7b\n" ++
      "  return `\n" ++
      "    <header class=\"header\">\n" ++
      "      <h1>" ++
      pn ++
      "</h1>\n" ++
      "      <p>Full-Stack Application Demo</p>\n" ++
      "    </header>\n" ++
      "  `;\n" ++
      "\x7d\n")),
    FsAction.write (["frontend", "src", "pages", "UsersPage.js"])
      (FileContent.text ("// Users Page Component\n" ++
      "export function createUsersPage() \x7b\n" ++
      "  return `\n" ++
      "    <div class=\"page\">\n" ++
      "      <h2>User Management</h2>\n" ++
      "      <button id=\"refreshBtn\" class=\"btn btn-secondary\">Refresh Users</button>\n" ++
      "      \n" ++
      "      <div id=\"userList\" class=\"user-list\">\n" ++
      "        <p>Loading users...</p>\n" ++
      "      </div>\n" ++
      "\n" ++
      "      <div class=\"form-section\">\n" ++
      "        <h3>Add New User</h3>\n" ++
      "        <form id=\"userForm\">\n" ++
      "          <input type=\"text\" id=\"name\" placeholder=\"Name\" required />\n" ++
      "          <input type=\"email\" id=\"email\" placeholder=\"Email\" required />\n" ++
      "          <button type=\"submit\" class=\"btn btn-primary\">Add User</button>\n" ++
      "        </form>\n" ++
      "      </div>\n" ++
      "    </div>\n" ++
      "  `;\n" ++
      "\x7d\n")),
    FsAction.write (["frontend", "public", "index.html"])
      (FileContent.text ("<!DOCTYPE html>\n" ++
      "<html lang=\"en\">\n" ++
      "<head>\n" ++
      "  <meta charset=\"UTF-8\">\n" ++
      "  <meta name=\"viewport\" content=\"width=device-width, initial-scale=1.0\">\n" ++
      "  <title>" ++
      pn ++
      " - Full-Stack App</title>\n" ++
      "  <link rel=\"stylesheet\" href=\"../src/styles/main.css\">\n" ++
      "</head>\n" ++
      "<body>\n" ++
      "  <div class=\"container\">\n" ++
      "    <header>\n" ++
      "      <h1>" ++
      pn ++
      "</h1>\n" ++
      "      <p>Full-Stack Application</p>\n" ++
      "      <small>Frontend + Backend Connected</small>\n" ++
      "    </header>\n" ++
      "\n" ++
      "    <main>\n" ++
      "      <section class=\"status\">\n" ++
      "        <h2>Connection Status</h2>\n" ++
      "        <p id=\"status\">Checking backend connection...</p>\n" ++
      "      </section>\n" ++
      "\n" ++
      "      <section class=\"users\">\n" ++
      "        <div class=\"section-header\">\n" ++
      "          <h2>Users</h2>\n" ++
      "          <button id=\"refreshBtn\" class=\"btn btn-secondary\">ğŸ”„ Refresh</button>\n" ++
      "        </div>\n" ++
      "        <div id=\"userList\" class=\"user-list\">\n" ++
      "          <p>Loading users...</p>\n" ++
      "        </div>\n" ++
      "      </section>\n" ++
      "\n" ++
      "      <section class=\"form-section\">\n" ++
      "        <h2>Add New User</h2>\n" ++
      "        <form id=\"userForm\">\n" ++
      "          <div class=\"form-group\">\n" ++
      "            <label for=\"name\">Name:</label>\n" ++
      "            <input type=\"text\" id=\"name\" placeholder=\"Enter name\" required />\n" ++
      "          </div>\n" ++
      "          <div class=\"form-group\">\n" ++
      "            <label for=\"email\">Email:</label>\n" ++
      "            <input type=\"email\" id=\"email\" placeholder=\"Enter email\" required />\n" ++
      "          </div>\n" ++
      "          <button type=\"submit\" class=\"btn btn-primary\">Add User</button>\n" ++
      "        </form>\n" ++
      "      </section>\n" ++
      "    </main>\n" ++
      "\n" ++
      "    <footer>\n" ++
      "      <p>Created with create-project-cli | Backend: Node.js | Frontend: Vanilla JS</p>\n" ++
      "    </footer>\n" ++
      "  </div>\n" ++
      "\n" ++
      "  <script type=\"module\" src=\"../src/App.js\"></script>\n" ++
      "</body>\n" ++
      "</html>\n")),
    FsAction.write (["frontend", "src", "styles", "main.css"])
      (FileContent.text ("/* " ++
      pn ++
      " - Main Styles */\n" ++
      "\n" ++
      "* \x7b\n" ++
      "  margin: 0;\n" ++
      "  padding: 0;\n" ++
      "  box-sizing: border-box;\n" ++
      "\x7d\n" ++
      "\n" ++
      "body \x7b\n" ++
      "  font-family: 'Segoe UI', Tahoma, Geneva, Verdana, sans-serif;\n" ++
      "  background: linear-gradient(135deg, #667eea 0%, #764ba2 100%);\n" ++
      "  min-height: 100vh;\n" ++
      "  padding: 20px;\n" ++
      "\x7d\n" ++
      "\n" ++
      ".container \x7b\n" ++
      "  max-width: 1000px;\n" ++
      "  margin: 0 auto;\n" ++
      "  background: white;\n" ++
      "  border-radius: 15px;\n" ++
      "  box-shadow: 0 20px 60px rgba(0, 0, 0, 0.3);\n" ++
      "  overflow: hidden;\n" ++
      "\x7d\n" ++
      "\n" ++
      "header \x7b\n" ++
      "  background: linear-gradient(135deg, #667eea 0%, #764ba2 100%);\n" ++
      "  color: white;\n" ++
      "  padding: 30px;\n" ++
      "  text-align: center;\n" ++
      "\x7d\n" ++
      "\n" ++
      "header h1 \x7b\n" ++
      "  font-size: 2.5rem;\n" ++
      "  margin-bottom: 10px;\n" ++
      "\x7d\n" ++
      "\n" ++
      "header p \x7b\n" ++
      "  font-size: 1.2rem;\n" ++
      "  opacity: 0.9;\n" ++
      "\x7d\n" ++
      "\n" ++
      "header small \x7b\n" ++
      "  display: block;\n" ++
      "  margin-top: 10px;\n" ++
      "  opacity: 0.8;\n" ++
      "\x7d\n" ++
      "\n" ++
      "main \x7b\n" ++
      "  padding: 30px;\n" ++
      "\x7d\n" ++
      "\n" ++
      "section \x7b\n" ++
      "  margin-bottom: 30px;\n" ++
      "  padding: 20px;\n" ++
      "  background: #f8f9fa;\n" ++
      "  border-radius: 10px;\n" ++
      "\x7d\n" ++
      "\n" ++
      "h2 \x7b\n" ++
      "  color: #333;\n" ++
      "  margin-bottom: 15px;\n" ++
      "  font-size: 1.5rem;\n" ++
      "\x7d\n" ++
      "\n" ++
      ".status p \x7b\n" ++
      "  padding: 15px;\n" ++
      "  background: #fff;\n" ++
      "  border-radius: 5px;\n" ++
      "  border-left: 4px solid #667eea;\n" ++
      "\x7d\n" ++
      "\n" ++
      ".section-header \x7b\n" ++
      "  display: flex;\n" ++
      "  justify-content: space-between;\n" ++
      "  align-items: center;\n" ++
      "  margin-bottom: 15px;\n" ++
      "\x7d\n" ++
      "\n" ++
      ".user-list \x7b\n" ++
      "  display: grid;\n" ++
      "  grid-template-columns: repeat(auto-fill, minmax(250px, 1fr));\n" ++
      "  gap: 15px;\n" ++
      "\x7d\n" ++
      "\n" ++
      ".user-card \x7b\n" ++
      "  background: white;\n" ++
      "  padding: 20px;\n" ++
      "  border-radius: 8px;\n" ++
      "  box-shadow: 0 2px 8px rgba(0, 0, 0, 0.1);\n" ++
      "  transition: transform 0.2s;\n" ++
      "\x7d\n" ++
      "\n" ++
      ".user-card:hover \x7b\n" ++
      "  transform: translateY(-5px);\n" ++
      "  box-shadow: 0 4px 12px rgba(0, 0, 0, 0.15);\n" ++
      "\x7d\n" ++
      "\n" ++
      ".user-card h3 \x7b\n" ++
      "  color: #667eea;\n" ++
      "  margin-bottom: 8px;\n" ++
      "\x7d\n" ++
      "\n" ++
      ".user-card p \x7b\n" ++
      "  color: #666;\n" ++
      "  margin-bottom: 5px;\n" ++
      "\x7d\n" ++
      "\n" ++
      ".user-card small \x7b\n" ++
      "  color: #999;\n" ++
      "  font-size: 0.85rem;\n" ++
      "\x7d\n" ++
      "\n" ++
      ".form-section \x7b\n" ++
      "  background: #fff;\n" ++
      "\x7d\n" ++
      "\n" ++
      ".form-group \x7b\n" ++
      "  margin-bottom: 15px;\n" ++
      "\x7d\n" ++
      "\n" ++
      "label \x7b\n" ++
      "  display: block;\n" ++
      "  margin-bottom: 5px;\n" ++
      "  color: #555;\n" ++
      "  font-weight: 500;\n" ++
      "\x7d\n" ++
      "\n" ++
      "input[type=\"text\"],\n" ++
      "input[type=\"email\"] \x7b\n" ++
      "  width: 100%;\n" ++
      "  padding: 12px;\n" ++
      "  border: 2px solid #e0e0e0;\n" ++
      "  border-radius: 5px;\n" ++
      "  font-size: 1rem;\n" ++
      "  transition: border-color 0.3s;\n" ++
      "\x7d\n" ++
      "\n" ++
      "input:focus \x7b\n" ++
      "  outline: none;\n" ++
      "  border-color: #667eea;\n" ++
      "\x7d\n" ++
      "\n" ++
      ".btn \x7b\n" ++
      "  padding: 12px 24px;\n" ++
      "  border: none;\n" ++
      "  border-radius: 5px;\n" ++
      "  font-size: 1rem;\n" ++
      "  cursor: pointer;\n" ++
      "  transition: all 0.3s;\n" ++
      "  font-weight: 500;\n" ++
      "\x7d\n" ++
      "\n" ++
      ".btn-primary \x7b\n" ++
      "  background: #667eea;\n" ++
      "  color: white;\n" ++
      "\x7d\n" ++
      "\n" ++
      ".btn-primary:hover \x7b\n" ++
      "  background: #5568d3;\n" ++
      "  transform: translateY(-2px);\n" ++
      "\x7d\n" ++
      "\n" ++
      ".btn-secondary \x7b\n" ++
      "  background: #6c757d;\n" ++
      "  color: white;\n" ++
      "\x7d\n" ++
      "\n" ++
      ".btn-secondary:hover \x7b\n" ++
      "  background: #5a6268;\n" ++
      "\x7d\n" ++
      "\n" ++
      ".error \x7b\n" ++
      "  color: #dc3545;\n" ++
      "  padding: 15px;\n" ++
      "  background: #f8d7da;\n" ++
      "  border-radius: 5px;\n" ++
      "\x7d\n" ++
      "\n" ++
      "footer \x7b\n" ++
      "  background: #f8f9fa;\n" ++
      "  padding: 20px;\n" ++
      "  text-align: center;\n" ++
      "  color: #666;\n" ++
      "  border-top: 1px solid #e0e0e0;\n" ++
      "\x7d\n" ++
      "\n" ++
      "@media (max-width: 768px) \x7b\n" ++
      "  .user-list \x7b\n" ++
      "    grid-template-columns: 1fr;\n" ++
      "  \x7d\n" ++
      "  \n" ++
      "  header h1 \x7b\n" ++
      "    font-size: 2rem;\n" ++
      "  \x7d\n" ++
      "\x7d\n")),
    FsAction.write (["frontend", "server.js"])
      (FileContent.text ("// Frontend Development Server\n" ++
      "const http = require('http');\n" ++
      "const fs = require('fs');\n" ++
      "const path = require('path');\n" ++
      "\n" ++
      "const PORT = process.env.PORT || 3000;\n" ++
      "\n" ++
      "const mimeTypes = \x7b\n" ++
      "  '.html': 'text/html',\n" ++
      "  '.js': 'text/javascript',\n" ++
      "  '.css': 'text/css',\n" ++
      "  '.json': 'application/json',\n" ++
      "  '.png': 'image/png',\n" ++
      "  '.jpg': 'image/jpg',\n" ++
      "  '.gif': 'image/gif',\n" ++
      "  '.svg': 'image/svg+xml',\n" ++
      "  '.ico': 'image/x-icon'\n" ++
      "\x7d;\n" ++
      "\n" ++
      "const server = http.createServer((req, res) => \x7b\n" ++
      "  let filePath = req.url === '/' ? '/public/index.html' : req.url;\n" ++
      "  \n" ++
      "  // Remove query strings\n" ++
      "  filePath = filePath.split('?')[0];\n" ++
      "  \n" ++
      "  // Build full file path\n" ++
      "  let fullPath = path.join(__dirname, filePath);\n" ++
      "  \n" ++
      "  // Check if file exists\n" ++
      "  fs.access(fullPath, fs.constants.F_OK, (err) => \x7b\n" ++
      "    if (err) \x7b\n" ++
      "      res.writeHead(404);\n" ++
      "      res.end('404 Not Found');\n" ++
      "      return;\n" ++
      "    \x7d\n" ++
      "\n" ++
      "    // Get file extension\n" ++
      "    const extname = String(path.extname(fullPath)).toLowerCase();\n" ++
      "    const contentType = mimeTypes[extname] || 'application/octet-stream';\n" ++
      "\n" ++
      "    // Read and serve file\n" ++
      "    fs.readFile(fullPath, (error, content) => \x7b\n" ++
      "      if (error) \x7b\n" ++
      "        res.writeHead(500);\n" ++
      "        res.end('500 Internal Server Error: ' + error.code);\n" ++
      "      \x7d else \x7b\n" ++
      "        res.writeHead(200, \x7b 'Content-Type': contentType \x7d);\n" ++
      "        res.end(content, 'utf-8');\n" ++
      "      \x7d\n" ++
      "    \x7d);\n" ++
      "  \x7d);\n" ++
      "\x7d);\n" ++
      "\n" ++
      "server.listen(PORT, () => \x7b\n" ++
      "  console.log(`\\nğŸ¨ " ++
      pn ++
      " Frontend Server Started!`);\n" ++
      "  console.log(`ğŸ“± Frontend running on http://localhost:$\x7bPORT\x7d`);\n" ++
      "  console.log(`\\nâœ… Open http://localhost:$\x7bPORT\x7d in your browser!\\n`);\n" ++
      "\x7d);\n")),
    FsAction.write (["frontend", "package.json"])
      (FileContent.manifest (fullstackFrontendManifest pn author)),
    FsAction.mkdir (["backend"]),
    FsAction.mkdir (["backend", "routes"]),
    FsAction.mkdir (["backend", "controllers"]),
    FsAction.mkdir (["backend", "models"]),
    FsAction.mkdir (["backend", "middleware"]),
    FsAction.mkdir (["backend", "config"]),
    FsAction.write (["backend", "server.js"])
      (FileContent.text ("// " ++
      pn ++
      " - Backend Server\n" ++
      "const http = require('http');\n" ++
      "const url = require('url');\n" ++
      "const routes = require('./routes/index');\n" ++
      "\n" ++
      "const PORT = process.env.PORT || 5000;\n" ++
      "\n" ++
      "const server = http.createServer((req, res) => \x7b\n" ++
      "  const parsedUrl = url.parse(req.url, true);\n" ++
      "  const path = parsedUrl.pathname;\n" ++
      "  const method = req.method;\n" ++
      "\n" ++
      "  // CORS headers (allow frontend to connect)\n" ++
      "  res.setHeader('Access-Control-Allow-Origin', '*');\n" ++
      "  res.setHeader('Access-Control-Allow-Methods', 'GET, POST, PUT, DELETE, OPTIONS');\n" ++
      "  res.setHeader('Access-Control-Allow-Headers', 'Content-Type');\n" ++
      "  res.setHeader('Content-Type', 'application/json');\n" ++
      "\n" ++
      "  // Handle preflight requests\n" ++
      "  if (method === 'OPTIONS') \x7b\n" ++
      "    res.writeHead(200);\n" ++
      "    res.end();\n" ++
      "    return;\n" ++
      "  \x7d\n" ++
      "\n" ++
      "  // Route handling\n" ++
      "  routes.handleRequest(path, method, req, res, parsedUrl.query);\n" ++
      "\x7d);\n" ++
      "\n" ++
      "server.listen(PORT, () => \x7b\n" ++
      "  console.log(`\\nğŸš€ " ++
      pn ++
      " Backend Server Started!`);\n" ++
      "  console.log(`ğŸ“¡ Server running on http://localhost:$\x7bPORT\x7d`);\n" ++
      "  console.log(`ğŸ“‹ API Endpoints:`);\n" ++
      "  console.log(`   GET    http://localhost:$\x7bPORT\x7d/api/users`);\n" ++
      "  console.log(`   POST   http://localhost:$\x7bPORT\x7d/api/users`);\n" ++
      "  console.log(`   GET    http://localhost:$\x7bPORT\x7d/api/status`);\n" ++
      "  console.log(`\\nâœ… Ready to receive requests from frontend!\\n`);\n" ++
      "\x7d);\n")),
    FsAction.write (["backend", "routes", "index.js"])
      (FileContent.text ("// Routes Handler\n" ++
      "const userController = require('../controllers/userController');\n" ++
      "\n" ++
      "function handleRequest(path, method, req, res, query) \x7b\n" ++
      "  // Root endpoint\n" ++
      "  if (path === '/' && method === 'GET') \x7b\n" ++
      "    res.writeHead(200);\n" ++
      "    res.end(JSON.stringify(\x7b\n" ++
      "      message: 'Backend API is running',\n" ++
      "      version: '1.0.0',\n" ++
      "      endpoints: \x7b\n" ++
      "        'GET /api/status': 'Check API status',\n" ++
      "        'GET /api/users': 'Get all users',\n" ++
      "        'POST /api/users': 'Create new user'\n" ++
      "      \x7d\n" ++
      "    \x7d));\n" ++
      "    return;\n" ++
      "  \x7d\n" ++
      "\n" ++
      "  // Status endpoint\n" ++
      "  if (path === '/api/status' && method === 'GET') \x7b\n" ++
      "    res.writeHead(200);\n" ++
      "    res.end(JSON.stringify(\x7b\n" ++
      "      status: 'OK',\n" ++
      "      message: 'Backend is connected!',\n" ++
      "      timestamp: new Date().toISOString()\n" ++
      "    \x7d));\n" ++
      "    return;\n" ++
      "  \x7d\n" ++
      "\n" ++
      "  // User routes\n" ++
      "  if (path === '/api/users' && method === 'GET') \x7b\n" ++
      "    userController.getUsers(req, res);\n" ++
      "    return;\n" ++
      "  \x7d\n" ++
      "\n" ++
      "  if (path === '/api/users' && method === 'POST') \x7b\n" ++
      "    userController.createUser(req, res);\n" ++
      "    return;\n" ++
      "  \x7d\n" ++
      "\n" ++
      "  if (path.startsWith('/api/users/') && method === 'DELETE') \x7b\n" ++
      "    const id = path.split('/')[3];\n" ++
      "    userController.deleteUser(req, res, id);\n" ++
      "    return;\n" ++
      "  \x7d\n" ++
      "\n" ++
      "  // 404 Not Found\n" ++
      "  res.writeHead(404);\n" ++
      "  res.end(JSON.stringify(\x7b \n" ++
      "    error: 'Route not found',\n" ++
      "    path: path,\n" ++
      "    method: method\n" ++
      "  \x7d));\n" ++
      "\x7d\n" ++
      "\n" ++
      "module.exports = \x7b handleRequest \x7d;\n")),
    FsAction.write (["backend", "controllers", "userController.js"])
      (FileContent.text ("// User Controller - Handles user operations\n" ++
      "const User = require('../models/User');\n" ++
      "\n" ++
      "// Get all users\n" ++
      "function getUsers(req, res) \x7b\n" ++
      "  try \x7b\n" ++
      "    const users = User.getAll();\n" ++
      "    res.writeHead(200);\n" ++
      "    res.end(JSON.stringify(users));\n" ++
      "  \x7d catch (error) \x7b\n" ++
      "    res.writeHead(500);\n" ++
      "    res.end(JSON.stringify(\x7b error: error.message \x7d));\n" ++
      "  \x7d\n" ++
      "\x7d\n" ++
      "\n" ++
      "// Create new user\n" ++
      "function createUser(req, res) \x7b\n" ++
      "  let body = '';\n" ++
      "  \n" ++
      "  req.on('data', chunk => \x7b\n" ++
      "    body += chunk.toString();\n" ++
      "  \x7d);\n" ++
      "\n" ++
      "  req.on('end', () => \x7b\n" ++
      "    try \x7b\n" ++
      "      const userData = JSON.parse(body);\n" ++
      "      \n" ++
      "      // Validation\n" ++
      "      if (!userData.name || !userData.email) \x7b\n" ++
      "        res.writeHead(400);\n" ++
      "        res.end(JSON.stringify(\x7b \n" ++
      "          error: 'Name and email are required' \n" ++
      "        \x7d));\n" ++
      "        return;\n" ++
      "      \x7d\n" ++
      "\n" ++
      "      const newUser = User.create(userData);\n" ++
      "      res.writeHead(201);\n" ++
      "      res.end(JSON.stringify(\x7b\n" ++
      "        message: 'User created successfully',\n" ++
      "        user: newUser\n" ++
      "      \x7d));\n" ++
      "    \x7d catch (error) \x7b\n" ++
      "      res.writeHead(400);\n" ++
      "      res.end(JSON.stringify(\x7b error: error.message \x7d));\n" ++
      "    \x7d\n" ++
      "  \x7d);\n" ++
      "\x7d\n" ++
      "\n" ++
      "// Delete user\n" ++
      "function deleteUser(req, res, id) \x7b\n" ++
      "  try \x7b\n" ++
      "    User.delete(id);\n" ++
      "    res.writeHead(200);\n" ++
      "    res.end(JSON.stringify(\x7b \n" ++
      "      message: 'User deleted successfully',\n" ++
      "      id: id\n" ++
      "    \x7d));\n" ++
      "  \x7d catch (error) \x7b\n" ++
      "    res.writeHead(404);\n" ++
      "    res.end(JSON.stringify(\x7b error: error.message \x7d));\n" ++
      "  \x7d\n" ++
      "\x7d\n" ++
      "\n" ++
      "module.exports = \x7b\n" ++
      "  getUsers,\n" ++
      "  createUser,\n" ++
      "  deleteUser\n" ++
      "\x7d;\n")),
    FsAction.write (["backend", "models", "User.js"])
      (FileContent.text ("// User Model - In-Memory Database\n" ++
      "let users = [\n" ++
      "  \x7b id: 1, name: 'John Doe', email: 'john@example.com' \x7d,\n" ++
      "  \x7b id: 2, name: 'Jane Smith', email: 'jane@example.com' \x7d,\n" ++
      "  \x7b id: 3, name: 'Bob Johnson', email: 'bob@example.com' \x7d\n" ++
      "];\n" ++
      "\n" ++
      "let nextId = 4;\n" ++
      "\n" ++
      "class User \x7b\n" ++
      "  static getAll() \x7b\n" ++
      "    return users;\n" ++
      "  \x7d\n" ++
      "\n" ++
      "  static getById(id) \x7b\n" ++
      "    return users.find(user => user.id === parseInt(id));\n" ++
      "  \x7d\n" ++
      "\n" ++
      "  static create(userData) \x7b\n" ++
      "    const newUser = \x7b\n" ++
      "      id: nextId++,\n" ++
      "      name: userData.name,\n" ++
      "      email: userData.email,\n" ++
      "      createdAt: new Date().toISOString()\n" ++
      "    \x7d;\n" ++
      "    users.push(newUser);\n" ++
      "    return newUser;\n" ++
      "  \x7d\n" ++
      "\n" ++
      "  static delete(id) \x7b\n" ++
      "    const index = users.findIndex(user => user.id === parseInt(id));\n" ++
      "    if (index === -1) \x7b\n" ++
      "      throw new Error('User not found');\n" ++
      "    \x7d\n" ++
      "    users.splice(index, 1);\n" ++
      "    return true;\n" ++
      "  \x7d\n" ++
      "\n" ++
      "  static update(id, userData) \x7b\n" ++
      "    const user = this.getById(id);\n" ++
      "    if (!user) \x7b\n" ++
      "      throw new Error('User not found');\n" ++
      "    \x7d\n" ++
      "    Object.assign(user, userData);\n" ++
      "    return user;\n" ++
      "  \x7d\n" ++
      "\x7d\n" ++
      "\n" ++
      "module.exports = User;\n")),
    FsAction.write (["backend", "config", "db.js"])
      (FileContent.text ("// Database Configuration\n" ++
      "// Currently using in-memory storage\n" ++
      "// Replace this with real database connection (MongoDB, PostgreSQL, etc.)\n" ++
      "\n" ++
      "const dbConfig = \x7b\n" ++
      "  type: 'in-memory',\n" ++
      "  name: '" ++
      pn ++
      "-db',\n" ++
      "  version: '1.0.0'\n" ++
      "\x7d;\n" ++
      "\n" ++
      "// Example MongoDB connection (commented out)\n" ++
      "/*\n" ++
      "const mongoose = require('mongoose');\n" ++
      "\n" ++
      "async function connectDB() \x7b\n" ++
      "  try \x7b\n" ++
      "    await mongoose.connect(process.env.MONGODB_URI || 'mongodb://localhost:27017/" ++
      pn ++
      "', \x7b\n" ++
      "      useNewUrlParser: true,\n" ++
      "      useUnifiedTopology: true\n" ++
      "    \x7d);\n" ++
      "    console.log('âœ… Database connected successfully');\n" ++
      "  \x7d catch (error) \x7b\n" ++
      "    console.error('âŒ Database connection failed:', error);\n" ++
      "    process.exit(1);\n" ++
      "  \x7d\n" ++
      "\x7d\n" ++
      "\n" ++
      "module.exports = \x7b connectDB \x7d;\n" ++
      "*/\n" ++
      "\n" ++
      "module.exports = dbConfig;\n")),
    FsAction.write (["backend", ".env"])
      (FileContent.text ("# Backend Environment Variables\n" ++
      "PORT=5000\n" ++
      "NODE_ENV=development\n" ++
      "\n" ++
      "# Database (example)\n" ++
      "# MONGODB_URI=mongodb://localhost:27017/" ++
      pn ++
      "\n" ++
      "# DB_HOST=localhost\n" ++
      "# DB_PORT=5432\n" ++
      "# DB_NAME=" ++
      pn ++
      "\n" ++
      "\n" ++
      "# API Keys (example)\n" ++
      "# JWT_SECRET=your-secret-key-here\n" ++
      "# API_KEY=your-api-key-here\n")),
    FsAction.write (["backend", "package.json"])
      (FileContent.manifest (fullstackBackendManifest pn author)),
    FsAction.write (["README.md"])
      (FileContent.text ("# " ++
      pn ++
      "\n" ++
      "\n" ++
      "A full-stack application with React-style frontend and Node.js backend.\n" ++
      "\n" ++
      "## Project Structure\n" ++
      "\n" ++
      "```\n" ++
      pn ++
      "/\n" ++
      "â”œâ”€â”€ frontend/              # Frontend application\n" ++
      "â”‚   â”œâ”€â”€ src/\n" ++
      "â”‚   â”‚   â”œâ”€â”€ components/    # Reusable components\n" ++
      "â”‚   â”‚   â”œâ”€â”€ pages/         # Page components\n" ++
      "â”‚   â”‚   â”œâ”€â”€ styles/        # CSS styles\n" ++
      "â”‚   â”‚   â”œâ”€â”€ services/      # API services\n" ++
      "â”‚   â”‚   â””â”€â”€ App.js         # Main app logic\n" ++
      "â”‚   â””â”€â”€ public/\n" ++
      "â”‚       â””â”€â”€ index.html     # Main HTML file\n" ++
      "â”‚\n" ++
      "â”œâ”€â”€ backend/               # Backend API\n" ++
      "â”‚   â”œâ”€â”€ routes/            # API routes\n" ++
      "â”‚   â”œâ”€â”€ controllers/       # Request handlers\n" ++
      "â”‚   â”œâ”€â”€ models/            # Data models\n" ++
      "â”‚   â”œâ”€â”€ middleware/        # Custom middleware\n" ++
      "â”‚   â”œâ”€â”€ config/            # Configuration files\n" ++
      "â”‚   â”œâ”€â”€ server.js          # Main server\n" ++
      "â”‚   â”œâ”€â”€ .env               # Environment variables\n" ++
      "â”‚   â””â”€â”€ package.json       # Dependencies\n" ++
      "â”‚\n" ++
      "â””â”€â”€ README.md\n" ++
      "```\n" ++
      "\n" ++
      "## Getting Started\n" ++
      "\n" ++
      "### 1. Start the Backend\n" ++
      "\n" ++
      "```bash\n" ++
      "cd backend\n" ++
      "npm run dev\n" ++
      "```\n" ++
      "\n" ++
      "Backend will run on: **http://localhost:5000**\n" ++
      "\n" ++
      "### 2. Start the Frontend (in a new terminal)\n" ++
      "\n" ++
      "```bash\n" ++
      "cd frontend\n" ++
      "npm run dev\n" ++
      "```\n" ++
      "\n" ++
      "Frontend will run on: **http://localhost:3000**\n" ++
      "\n" ++
      "### 3. Access the Application\n" ++
      "\n" ++
      "Open your browser and go to: **http://localhost:3000**\n" ++
      "\n" ++
      "## Features\n" ++
      "\n" ++
      "### Frontend:\n" ++
      "- âœ… User Management Interface\n" ++
      "- âœ… API Integration\n" ++
      "- âœ… Responsive Design\n" ++
      "- âœ… Modern UI with Gradient Styling\n" ++
      "- âœ… Component-based Architecture\n" ++
      "\n" ++
      "### Backend:\n" ++
      "- âœ… RESTful API\n" ++
      "- âœ… User CRUD Operations\n" ++
      "- âœ… CORS Enabled\n" ++
      "- âœ… In-Memory Database (easily replaceable)\n" ++
      "- âœ… Modular Structure\n" ++
      "\n" ++
      "## API Endpoints\n" ++
      "\n" ++
      "| Method | Endpoint | Description |\n" ++
      "|--------|----------|-------------|\n" ++
      "| GET | /api/users | Get all users |\n" ++
      "| POST | /api/users | Create new user |\n" ++
      "| DELETE | /api/users/:id | Delete user |\n" ++
      "| GET | /api/status | Check API status |\n" ++
      "\n" ++
      "## How to Use\n" ++
      "\n" ++
      "1. **Start Backend**: \n" ++
      "   ```bash\n" ++
      "   cd backend\n" ++
      "   npm run dev\n" ++
      "   ```\n" ++
      "\n" ++
      "2. **Start Frontend** (in new terminal):\n" ++
      "   ```bash\n" ++
      "   cd frontend\n" ++
      "   npm run dev\n" ++
      "   ```\n" ++
      "\n" ++
      "3. **Open Browser**: Go to http://localhost:3000\n" ++
      "4. **Test Connection**: Check if users load automatically\n" ++
      "5. **Add Users**: Fill the form and submit\n" ++
      "6. **Refresh**: Click refresh button to reload users\n" ++
      "\n" ++
      "## Technologies Used\n" ++
      "\n" ++
      "- **Frontend**: Vanilla JavaScript, HTML5, CSS3\n" ++
      "- **Backend**: Node.js (standard libraries only)\n" ++
      "- **Database**: In-memory (can be replaced with MongoDB, PostgreSQL, etc.)\n" ++
      "\n" ++
      "## Future Enhancements\n" ++
      "\n" ++
      "- [ ] Add database integration (MongoDB/PostgreSQL)\n" ++
      "- [ ] Add authentication (JWT)\n" ++
      "- [ ] Add user edit functionality\n" ++
      "- [ ] Add pagination\n" ++
      "- [ ] Add search/filter\n" ++
      "- [ ] Deploy to cloud\n" ++
      "\n" ++
      "## Author\n" ++
      "\n" ++
      (jsOr author ("Your Name")) ++
      "\n" ++
      "\n" ++
      "## License\n" ++
      "\n" ++
      "MIT License\n" ++
      "\n" ++
      "---\n" ++
      "\n" ++
      "*Generated with create-project-cli*\n")),
    FsAction.write ([".gitignore"])
      (FileContent.text ("# Dependencies\n" ++
      "node_modules/\n" ++
      "package-lock.json\n" ++
      "\n" ++
      "# Environment variables\n" ++
      ".env\n" ++
      ".env.local\n" ++
      ".env.production\n" ++
      "\n" ++
      "# Logs\n" ++
      "*.log\n" ++
      "npm-debug.log*\n" ++
      "\n" ++
      "# OS\n" ++
      ".DS_Store\n" ++
      "Thumbs.db\n" ++
      "\n" ++
      "# IDE\n" ++
      ".vscode/\n" ++
      ".idea/\n" ++
      "*.swp\n" ++
      "*.swo\n" ++
      "\n" ++
      "# Build\n" ++
      "dist/\n" ++
      "build/\n"))
  ]

/-- Embeds `TemplateGenerator.generate` (part_002, lines 16-35): the switch over the
template name; the `default` case falls through to the basic template. -/
def generate (template : String) (opts : Options) (today : String) : List FsAction :=
  if template = "web" then generateWebTemplate opts today
  else if template = "api" then generateApiTemplate opts today
  else if template = "cli" then generateCliTemplate opts today
  else if template = "fullstack" then generateFullstackTemplate opts today
  else generateBasicTemplate opts today

/-- Path of an action, relative to the project root. -/
def FsAction.pathOf : FsAction → List String
  | .mkdir p => p
  | .write p _ => p

/-- Paths of the directories created by a run, in creation order. -/
def mkdirPaths (acts : List FsAction) : List (List String) :=
  acts.filterMap (fun a => match a with | .mkdir p => some p | _ => none)

/-- Paths of the files written by a run, in write order. -/
def writePaths (acts : List FsAction) : List (List String) :=
  acts.filterMap (fun a => match a with | .write p _ => some p | _ => none)

/-- Paths of all actions of a run, in order. -/
def allPaths (acts : List FsAction) : List (List String) := acts.map FsAction.pathOf

/-- The package manifests written by a run, paired with their paths. -/
def manifestsOf (acts : List FsAction) : List (List String × Manifest) :=
  acts.filterMap
    (fun a => match a with | .write p (.manifest m) => some (p, m) | _ => none)

namespace ArgumentParser

/-- Error message thrown when no project name is found among the arguments. -/
def nameRequiredMsg : String :=
  "Project name is required. Usage: create-proj <project-name> [options]"

/-- Error message thrown when --template / -t lacks a usable value. -/
def templateValueMsg : String := "--template flag requires a value"

/-- Error message thrown when --author / -a lacks a usable value. -/
def authorValueMsg : String := "--author flag requires a value"

/-- Embeds the flag-scanning loop of `ArgumentParser.parse`
(src/utils/argumentParser.js, lines 28-55). Each step mirrors one loop iteration;
consuming a flag's value corresponds to the `i++` skip. The JS guard
`!args[i + 1] || args[i + 1].startsWith('-')` rejects an absent next token, an
empty next token (falsy in JS), or one starting with `-`. -/
def parseFlags : Config → List String → Except String Config
  | config, [] => .ok config
  | config, arg :: rest =>
    if arg = "--template" || arg = "-t" then
      match rest with
      | [] => .error templateValueMsg
      | v :: rest2 =>
        if v = "" || jsStartsWith v ("-") then .error templateValueMsg
        else parseFlags { config with template := jsToLower v } rest2
    else if arg = "--git" || arg = "-g" then
      parseFlags { config with gitInit := true } rest
    else if arg = "--author" || arg = "-a" then
      match rest with
      | [] => .error authorValueMsg
      | v :: rest2 =>
        if v = "" || jsStartsWith v ("-") then .error authorValueMsg
        else parseFlags { config with author := v } rest2
    else parseFlags config rest

/-- Embeds `ArgumentParser.parse` (src/utils/argumentParser.js, lines 12-58):
`args.find(arg => !arg.startsWith('-'))` picks the project name first (an empty
string found there is falsy and also raises the missing-name error); then the
flag loop scans the whole list. -/
def parse (args : List String) : Except String Config :=
  match args.find? (fun a => !(jsStartsWith a ("-"))) with
  | none => .error nameRequiredMsg
  | some n =>
    if n = "" then .error nameRequiredMsg
    else parseFlags { projectName := n, template := "basic", gitInit := false, author := "" } args

end ArgumentParser

/-- The valid template names, in the order listed by `validateConfig`
(src/index.js, line 72). -/
def validTemplates : List String := ["web", "api", "cli", "basic", "fullstack"]

/-- The JS name check `/^[a-zA-Z0-9_-]+$/.test(projectName)`
(src/index.js, line 60): nonempty, all characters ASCII alphanumeric, `_` or `-`. -/
def validName (s : String) : Bool :=
  !(s = "") && s.toList.all (fun c => c.isAlphanum || c = '_' || c = '-')

/-- Error message for a project name failing the pattern (src/index.js, line 62). -/
def invalidNameMsg : String :=
  "Project name can only contain letters, numbers, hyphens, and underscores"

/-- Error message for an already-existing target directory (src/index.js, line 68). -/
def dirExistsMsg (projectName : String) : String :=
  "Directory \"" ++ projectName ++ "\" already exists. Please choose a different name."

/-- Error message for an unknown template (src/index.js, line 74). -/
def invalidTemplateMsg (template : String) : String :=
  "Invalid template \"" ++ template ++ "\". Valid templates: " ++
    String.intercalate (", ") validTemplates

/-- Embeds `validateConfig` (src/index.js, lines 56-76). `fsExists` stands for
`fs.existsSync`; `path.join(process.cwd(), projectName)` is modelled as
`cwd ++ "/" ++ projectName`. The three checks run in source order and the first
failure throws. -/
def validateConfig (fsExists : String → Bool) (cwd : String) (config : Config) :
    Except String Unit :=
  if !(validName config.projectName) then .error invalidNameMsg
  else if fsExists (cwd ++ "/" ++ config.projectName) then
    .error (dirExistsMsg config.projectName)
  else if !(validTemplates.contains config.template) then
    .error (invalidTemplateMsg config.template)
  else .ok ()

/-- Warning logged when Git initialization fails (src/index.js, line 119). -/
def gitWarnMsg : String := "⚠ Git initialization failed. Make sure Git is installed."

/-- Embeds `initGit` (src/index.js, lines 104-121). `execOk k` tells whether the
k-th `execSync` call (0: `git init`, 1: `git add .`, 2: `git commit -m ...`)
succeeds. Returns the process working directory after the call and whether
initialization succeeded. The source does `process.chdir(projectPath)` before the
three commands and `process.chdir(originalCwd)` only on the success path inside
the `try`; when a command throws, the `catch` block logs a warning without
restoring the working directory, so the process is left in `projectPath`. -/
def initGit (originalCwd projectPath : String) (execOk : Nat → Bool) : String × Bool :=
  if !(execOk 0) then (projectPath, false)
  else if !(execOk 1) then (projectPath, false)
  else if !(execOk 2) then (projectPath, false)
  else (originalCwd, true)

/-- Outcome of one `ProjectCLI.run` invocation: the process exit code, the
filesystem actions performed (paths relative to `cwd`), the fatal error message
printed (if any), the warnings logged, and the final working directory. -/
structure RunResult where
  exitCode : Nat
  actions : List FsAction
  errorMsg : Option String
  warnings : List String
  finalCwd : String
  deriving DecidableEq

/-- Re-roots an action one directory down, for actions performed under the
project directory. -/
def FsAction.underDir (d : String) : FsAction → FsAction
  | .mkdir p => .mkdir (d :: p)
  | .write p c => .write (d :: p) c

/-- Embeds `ProjectCLI.run` together with `createProject` (src/index.js,
lines 17-99). Help short-circuits with exit code 0 and no filesystem action.
A parse or validation error prints `✗ Error: ...` and exits 1 before anything is
written. Otherwise `createProject` makes the project directory
(`fs.mkdirSync(projectPath)`), runs the generator under it, and, when `gitInit`
is set, calls `initGit`, whose failure only appends a warning. -/
def run (args : List String) (fsExists : String → Bool) (cwd : String)
    (execOk : Nat → Bool) (today : String) : RunResult :=
  if args.isEmpty || args.contains ("--help") || args.contains ("-h") then
    { exitCode := 0, actions := [], errorMsg := none, warnings := [], finalCwd := cwd }
  else
    match ArgumentParser.parse args with
    | .error msg =>
      { exitCode := 1, actions := [], errorMsg := some msg, warnings := [], finalCwd := cwd }
    | .ok config =>
      match validateConfig fsExists cwd config with
      | .error msg =>
        { exitCode := 1, actions := [], errorMsg := some msg, warnings := [], finalCwd := cwd }
      | .ok _ =>
        let projectPath := cwd ++ "/" ++ config.projectName
        let acts := FsAction.mkdir [config.projectName] ::
          (generate config.template
              { projectName := config.projectName, author := config.author } today).map
            (FsAction.underDir config.projectName)
        if config.gitInit then
          let r := initGit cwd projectPath execOk
          { exitCode := 0, actions := acts, errorMsg := none,
            warnings := if r.2 then [] else [gitWarnMsg], finalCwd := r.1 }
        else
          { exitCode := 0, actions := acts, errorMsg := none, warnings := [],
            finalCwd := cwd }

/-- The five template names the spec enumerates, in the spec's order. -/
def templates : List String := ["basic", "web", "api", "cli", "fullstack"]

/-- A path segment that cannot redirect `path.join(root, …)`: nonempty, not `.`
or `..`, and without a separator. Every segment the generators pass to
`path.join` is a literal of this form. -/
def cleanSeg (s : String) : Bool :=
  !(s = "") && !(s = ".") && !(s = "..") && !(s.toList.contains '/')

/-- One step of POSIX-style path resolution: `.` and empty segments are skipped,
`..` pops one directory, any other segment descends. -/
def resolveSeg (acc : List String) (s : String) : List String :=
  if s = "" || s = "." then acc
  else if s = ".." then acc.dropLast
  else acc ++ [s]

/-- Resolves a relative segment path against a root directory. -/
def resolve (root segs : List String) : List String := segs.foldl resolveSeg root

/-- The path `q` lies strictly inside the directory `root`. -/
def insideRoot (root q : List String) : Prop := ∃ rest, rest ≠ [] ∧ q = root ++ rest

/-- Directory sets transcribed from the directory column of spec §4.3's table.
The fullstack row's brace patterns
`frontend/\x7bsrc/\x7bcomponents,pages,styles,services\x7d,public\x7d` and
`backend/\x7broutes,controllers,models,middleware,config\x7d` are expanded to the
full directory tree they denote, intermediate directories included. -/
def specDirs (template : String) : List (List String) :=
  if template = "basic" then [["src"], ["utils"], ["tests"]]
  else if template = "web" then
    [["src"], ["src", "css"], ["src", "js"], ["public"], ["assets"]]
  else if template = "api" then
    [["src"], ["src", "routes"], ["src", "controllers"], ["src", "models"],
     ["src", "middleware"], ["utils"], ["config"]]
  else if template = "cli" then [["src"], ["utils"], ["commands"]]
  else if template = "fullstack" then
    [["frontend"], ["frontend", "src"], ["frontend", "src", "components"],
     ["frontend", "src", "pages"], ["frontend", "src", "styles"],
     ["frontend", "src", "services"], ["frontend", "public"],
     ["backend"], ["backend", "routes"], ["backend", "controllers"],
     ["backend", "models"], ["backend", "middleware"], ["backend", "config"]]
  else []

/-- File sets transcribed from the files column of spec §4.3's table, with each
role given the concrete relative path the spec's surrounding sections attach to
it (manifest = package.json, ignore file = .gitignore, README = README.md, entry
stubs under src/, and so on). The fullstack row reads: per-side manifests, the
frontend app/service/component/page/server/CSS/HTML files, the backend
server/routes/controller/in-memory-model/config/.env files, root README and
ignore file. -/
def specFiles (template : String) : List (List String) :=
  if template = "basic" then
    [["src", "index.js"], ["utils", "helpers.js"], ["package.json"],
     [".gitignore"], ["README.md"]]
  else if template = "web" then
    [["src", "index.html"], ["src", "css", "style.css"], ["src", "js", "app.js"],
     ["package.json"], [".gitignore"], ["README.md"]]
  else if template = "api" then
    [["src", "server.js"], ["src", "routes", "index.js"],
     ["src", "controllers", "index.js"], ["config", "config.js"],
     ["package.json"], [".gitignore"], ["README.md"]]
  else if template = "cli" then
    [["src", "cli.js"], ["commands", "index.js"], ["package.json"],
     [".gitignore"], ["README.md"]]
  else if template = "fullstack" then
    [["frontend", "package.json"], ["backend", "package.json"],
     ["frontend", "src", "App.js"], ["frontend", "src", "services", "api.js"],
     ["frontend", "src", "components", "Header.js"],
     ["frontend", "src", "pages", "UsersPage.js"], ["frontend", "server.js"],
     ["frontend", "src", "styles", "main.css"], ["frontend", "public", "index.html"],
     ["backend", "server.js"], ["backend", "routes", "index.js"],
     ["backend", "controllers", "userController.js"], ["backend", "models", "User.js"],
     ["backend", "config", "db.js"], ["backend", ".env"],
     ["README.md"], [".gitignore"]]
  else []

/-- Message raised for a value-taking flag `f` missing its value: the source names
the flag family by its long form in both the `--template`/`-t` and the
`--author`/`-a` branch. -/
def flagValueMsg (f : String) : String :=
  if f = "--template" || f = "-t" then ArgumentParser.templateValueMsg
  else ArgumentParser.authorValueMsg

/-- Analysis helper: the leftmost value-taking flag of the list whose following
token is absent, empty, or `-`-initial, skipping the value tokens that
well-formed flags consume — the same scan order as `ArgumentParser.parseFlags`. -/
def firstBadFlag : List String → Option String
  | [] => none
  | a :: rest =>
    if a = "--template" || a = "-t" || a = "--author" || a = "-a" then
      match rest with
      | [] => some a
      | v :: rest2 =>
        if v = "" || jsStartsWith v ("-") then some a else firstBadFlag rest2
    else firstBadFlag rest

/-- Analysis helper: the value tokens the flag scan ends up storing for
--template (or -t) and --author (or -a): the value token of the last well-formed
occurrence of each flag kind, in the same scan order as
`ArgumentParser.parseFlags` (a later occurrence overwrites an earlier one);
`none` when the kind never occurs. -/
def lastFlagValues : List String → Option String × Option String
  | [] => (none, none)
  | a :: rest =>
    if a = "--template" || a = "-t" || a = "--author" || a = "-a" then
      match rest with
      | [] => (none, none)
      | v :: rest2 =>
        if v = "" || jsStartsWith v ("-") then (none, none)
        else if a = "--template" || a = "-t" then
          ((match (lastFlagValues rest2).1 with | some w => some w | none => some v),
           (lastFlagValues rest2).2)
        else
          ((lastFlagValues rest2).1,
           (match (lastFlagValues rest2).2 with | some w => some w | none => some v))
    else lastFlagValues rest

/-- Directory paths of the basic template are option-independent. -/
theorem mkdirPaths_basic (o : Options) (d : String) :
    mkdirPaths (generate "basic" o d) = [["src"], ["utils"], ["tests"]] := rfl

/-- File paths of the basic template are option-independent. -/
theorem writePaths_basic (o : Options) (d : String) :
    writePaths (generate "basic" o d) =
      [["src", "index.js"], ["utils", "helpers.js"], ["README.md"], [".gitignore"],
       ["package.json"]] := rfl

/-- Directory paths of the web template are option-independent. -/
theorem mkdirPaths_web (o : Options) (d : String) :
    mkdirPaths (generate "web" o d) =
      [["src"], ["src", "css"], ["src", "js"], ["public"], ["assets"]] := rfl

/-- File paths of the web template are option-independent. -/
theorem writePaths_web (o : Options) (d : String) :
    writePaths (generate "web" o d) =
      [["src", "index.html"], ["src", "css", "style.css"], ["src", "js", "app.js"],
       ["README.md"], [".gitignore"], ["package.json"]] := rfl

/-- Directory paths of the api template are option-independent. -/
theorem mkdirPaths_api (o : Options) (d : String) :
    mkdirPaths (generate "api" o d) =
      [["src"], ["src", "routes"], ["src", "controllers"], ["src", "models"],
       ["src", "middleware"], ["utils"], ["config"]] := rfl

/-- File paths of the api template are option-independent. -/
theorem writePaths_api (o : Options) (d : String) :
    writePaths (generate "api" o d) =
      [["src", "server.js"], ["src", "routes", "index.js"],
       ["src", "controllers", "index.js"], ["config", "config.js"], ["README.md"],
       [".gitignore"], ["package.json"]] := rfl

/-- Directory paths of the cli template are option-independent. -/
theorem mkdirPaths_cli (o : Options) (d : String) :
    mkdirPaths (generate "cli" o d) = [["src"], ["utils"], ["commands"]] := rfl

/-- File paths of the cli template are option-independent. -/
theorem writePaths_cli (o : Options) (d : String) :
    writePaths (generate "cli" o d) =
      [["src", "cli.js"], ["commands", "index.js"], ["README.md"], [".gitignore"],
       ["package.json"]] := rfl

/-- Directory paths of the fullstack template are option-independent. -/
theorem mkdirPaths_fullstack (o : Options) (d : String) :
    mkdirPaths (generate "fullstack" o d) =
      [["frontend"], ["frontend", "src"], ["frontend", "src", "components"],
       ["frontend", "src", "pages"], ["frontend", "src", "styles"],
       ["frontend", "src", "services"], ["frontend", "public"], ["backend"],
       ["backend", "routes"], ["backend", "controllers"], ["backend", "models"],
       ["backend", "middleware"], ["backend", "config"]] := rfl

/-- File paths of the fullstack template are option-independent. -/
theorem writePaths_fullstack (o : Options) (d : String) :
    writePaths (generate "fullstack" o d) =
      [["frontend", "src", "App.js"], ["frontend", "src", "services", "api.js"],
       ["frontend", "src", "components", "Header.js"],
       ["frontend", "src", "pages", "UsersPage.js"], ["frontend", "public", "index.html"],
       ["frontend", "src", "styles", "main.css"], ["frontend", "server.js"],
       ["frontend", "package.json"], ["backend", "server.js"],
       ["backend", "routes", "index.js"], ["backend", "controllers", "userController.js"],
       ["backend", "models", "User.js"], ["backend", "config", "db.js"],
       ["backend", ".env"], ["backend", "package.json"], ["README.md"],
       [".gitignore"]] := rfl

/-- All action paths of the basic template are option-independent. -/
theorem allPaths_basic (o : Options) (d : String) :
    allPaths (generate "basic" o d) =
      [["src"], ["utils"], ["tests"], ["src", "index.js"], ["utils", "helpers.js"],
       ["README.md"], [".gitignore"], ["package.json"]] := rfl

/-- All action paths of the web template are option-independent. -/
theorem allPaths_web (o : Options) (d : String) :
    allPaths (generate "web" o d) =
      [["src"], ["src", "css"], ["src", "js"], ["public"], ["assets"],
       ["src", "index.html"], ["src", "css", "style.css"], ["src", "js", "app.js"],
       ["README.md"], [".gitignore"], ["package.json"]] := rfl

/-- All action paths of the api template are option-independent. -/
theorem allPaths_api (o : Options) (d : String) :
    allPaths (generate "api" o d) =
      [["src"], ["src", "routes"], ["src", "controllers"], ["src", "models"],
       ["src", "middleware"], ["utils"], ["config"], ["src", "server.js"],
       ["src", "routes", "index.js"], ["src", "controllers", "index.js"],
       ["config", "config.js"], ["README.md"], [".gitignore"], ["package.json"]] := rfl

/-- All action paths of the cli template are option-independent. -/
theorem allPaths_cli (o : Options) (d : String) :
    allPaths (generate "cli" o d) =
      [["src"], ["utils"], ["commands"], ["src", "cli.js"], ["commands", "index.js"],
       ["README.md"], [".gitignore"], ["package.json"]] := rfl

/-- All action paths of the fullstack template are option-independent. -/
theorem allPaths_fullstack (o : Options) (d : String) :
    allPaths (generate "fullstack" o d) =
      [["frontend"], ["frontend", "src"], ["frontend", "src", "components"],
       ["frontend", "src", "pages"], ["frontend", "src", "styles"],
       ["frontend", "src", "services"], ["frontend", "public"],
       ["frontend", "src", "App.js"], ["frontend", "src", "services", "api.js"],
       ["frontend", "src", "components", "Header.js"],
       ["frontend", "src", "pages", "UsersPage.js"], ["frontend", "public", "index.html"],
       ["frontend", "src", "styles", "main.css"], ["frontend", "server.js"],
       ["frontend", "package.json"], ["backend"], ["backend", "routes"],
       ["backend", "controllers"], ["backend", "models"], ["backend", "middleware"],
       ["backend", "config"], ["backend", "server.js"], ["backend", "routes", "index.js"],
       ["backend", "controllers", "userController.js"], ["backend", "models", "User.js"],
       ["backend", "config", "db.js"], ["backend", ".env"], ["backend", "package.json"],
       ["README.md"], [".gitignore"]] := rfl

/-- Manifests of the basic template. -/
theorem manifestsOf_basic (o : Options) (d : String) :
    manifestsOf (generate "basic" o d) =
      [(["package.json"], basicManifest o.projectName o.author)] := rfl

/-- Manifests of the web template. -/
theorem manifestsOf_web (o : Options) (d : String) :
    manifestsOf (generate "web" o d) =
      [(["package.json"], webManifest o.projectName o.author)] := rfl

/-- Manifests of the api template. -/
theorem manifestsOf_api (o : Options) (d : String) :
    manifestsOf (generate "api" o d) =
      [(["package.json"], apiManifest o.projectName o.author)] := rfl

/-- Manifests of the cli template. -/
theorem manifestsOf_cli (o : Options) (d : String) :
    manifestsOf (generate "cli" o d) =
      [(["package.json"], cliManifest o.projectName o.author)] := rfl

/-- Manifests of the fullstack template: one per side, with suffixed names. -/
theorem manifestsOf_fullstack (o : Options) (d : String) :
    manifestsOf (generate "fullstack" o d) =
      [(["frontend", "package.json"], fullstackFrontendManifest o.projectName o.author),
       (["backend", "package.json"], fullstackBackendManifest o.projectName o.author)] := rfl

/-- JS `a || ''` is the identity on strings. -/
theorem jsOr_empty (a : String) : jsOr a ("") = a := by
  unfold jsOr
  split
  · next h => exact h.symm
  · rfl

/-- Clean segments resolve by plain concatenation. -/
theorem resolve_clean (segs : List String) :
    ∀ root, (∀ s ∈ segs, cleanSeg s = true) → resolve root segs = root ++ segs := by
  induction segs with
  | nil => intro root _; simp [resolve]
  | cons s rest ih =>
    intro root h
    have hs : cleanSeg s = true := h s (by simp)
    have hrest : ∀ x ∈ rest, cleanSeg x = true := fun x hx => h x (by simp [hx])
    simp only [cleanSeg, Bool.and_eq_true, Bool.not_eq_true', decide_eq_false_iff_not] at hs
    obtain ⟨⟨⟨e1, e2⟩, e3⟩, _⟩ := hs
    have h1 : resolveSeg root s = root ++ [s] := by
      simp [resolveSeg, e1, e2, e3]
    show List.foldl resolveSeg root (s :: rest) = root ++ s :: rest
    rw [List.foldl_cons, h1]
    have h2 := ih (root ++ [s]) hrest
    simp only [resolve] at h2
    rw [h2]
    simp

/-- Appending a nonempty relative path lands strictly inside the root. -/
theorem insideRoot_append (root rest : List String) (h : rest ≠ []) :
    insideRoot root (root ++ rest) := ⟨rest, h, rfl⟩

/-- Lifts per-path cleanliness of a path list to the full containment property. -/
theorem paths_ok_of_clean (L : List (List String)) (root : List String)
    (h : ∀ p ∈ L, p ≠ [] ∧ p.all cleanSeg = true) :
    ∀ p ∈ L, p ≠ [] ∧ p.all cleanSeg = true ∧ insideRoot root (resolve root p) := by
  intro p hp
  obtain ⟨h1, h2⟩ := h p hp
  refine ⟨h1, h2, ?_⟩
  rw [resolve_clean p root (fun s hs => List.all_eq_true.mp h2 s hs)]
  exact insideRoot_append root p h1

/-- When some `execSync` step fails, `initGit` reports failure. -/
theorem initGit_failed (a b : String) (execOk : Nat → Bool)
    (h : (execOk 0 && execOk 1 && execOk 2) = false) :
    (initGit a b execOk).2 = false := by
  cases h0 : execOk 0 <;> cases h1 : execOk 1 <;> cases h2 : execOk 2 <;>
    simp_all [initGit]

/-- The flag loop fails with the message of the leftmost value-taking flag that
misses its value. -/
theorem parseFlags_error_of_firstBad (l : List String) :
    ∀ (config : Config) (f : String),
      firstBadFlag l = some f →
      ArgumentParser.parseFlags config l = .error (flagValueMsg f) := by
  induction l using firstBadFlag.induct with
  | case1 =>
    intro config f h
    simp [firstBadFlag] at h
  | case2 v hflag =>
    intro config f h
    rw [show firstBadFlag [v] = some v by simp [firstBadFlag, hflag]] at h
    obtain rfl : v = f := by simpa using h
    rw [ArgumentParser.parseFlags.eq_def]
    simp only [Bool.or_eq_true, decide_eq_true_eq] at hflag
    rcases hflag with ((rfl | rfl) | rfl) | rfl <;> simp [flagValueMsg]
  | case3 v hflag v1 rest2 hbad =>
    intro config f h
    rw [show firstBadFlag (v :: v1 :: rest2) = some v by
      simp [firstBadFlag, hflag, hbad]] at h
    obtain rfl : v = f := by simpa using h
    rw [ArgumentParser.parseFlags.eq_def]
    simp only [Bool.or_eq_true, decide_eq_true_eq] at hflag
    rcases hflag with ((rfl | rfl) | rfl) | rfl <;> simp [flagValueMsg, hbad]
  | case4 v hflag v1 rest2 hgood ih =>
    intro config f h
    have hgood' : (decide (v1 = "") || jsStartsWith v1 ("-")) = false := by
      simpa using hgood
    rw [show firstBadFlag (v :: v1 :: rest2) = firstBadFlag rest2 by
      simp [firstBadFlag, hflag, hgood']] at h
    rw [ArgumentParser.parseFlags.eq_def]
    simp only [Bool.or_eq_true, decide_eq_true_eq] at hflag
    rcases hflag with ((rfl | rfl) | rfl) | rfl
    all_goals simp [hgood']
    all_goals exact ih _ f h
  | case5 v rest2 hflag ih =>
    intro config f h
    simp only [Bool.or_eq_true, decide_eq_true_eq, not_or] at hflag
    obtain ⟨⟨⟨h1, h2⟩, h3⟩, h4⟩ := hflag
    rw [show firstBadFlag (v :: rest2) = firstBadFlag rest2 by
      rw [firstBadFlag.eq_def]
      simp [h1, h2, h3, h4]] at h
    rw [ArgumentParser.parseFlags.eq_def]
    rcases Decidable.em (v = "--git") with rfl | h5
    · simpa using ih _ f h
    · rcases Decidable.em (v = "-g") with rfl | h6
      · simpa using ih _ f h
      · simp [h1, h2, h3, h4, h5, h6]
        exact ih _ f h

/-- With a usable project name present, `parse` reduces to the flag loop started
from the default configuration. -/
theorem parse_eq_parseFlags (args : List String) (n : String)
    (hfind : args.find? (fun a => !(jsStartsWith a ("-"))) = some n) (hne : n ≠ "") :
    ArgumentParser.parse args =
      ArgumentParser.parseFlags
        { projectName := n, template := "basic", gitInit := false, author := "" } args := by
  unfold ArgumentParser.parse
  rw [hfind]
  simp [hne]

/-- The flag loop succeeds when every value-taking flag is well formed; the
resulting configuration keeps the starting projectName, stores as template the
lowercased value of the last --template (or -t) occurrence, and as author the
verbatim value of the last --author (or -a) occurrence, falling back to the
starting fields when a kind never occurs. -/
theorem parseFlags_final_of_noBad (l : List String) :
    ∀ config : Config, firstBadFlag l = none →
      ∃ c, ArgumentParser.parseFlags config l = .ok c ∧
        c.projectName = config.projectName ∧
        c.template = (match (lastFlagValues l).1 with
          | some v => jsToLower v
          | none => config.template) ∧
        c.author = (match (lastFlagValues l).2 with
          | some v => v
          | none => config.author) := by
  induction l using firstBadFlag.induct with
  | case1 =>
    intro config _
    exact ⟨config, rfl, rfl, rfl, rfl⟩
  | case2 v hflag =>
    intro config h
    rw [show firstBadFlag [v] = some v by simp [firstBadFlag, hflag]] at h
    simp at h
  | case3 v hflag v1 rest2 hbad =>
    intro config h
    rw [show firstBadFlag (v :: v1 :: rest2) = some v by
      simp [firstBadFlag, hflag, hbad]] at h
    simp at h
  | case4 v hflag v1 rest2 hgood ih =>
    intro config h
    have hgood' : (decide (v1 = "") || jsStartsWith v1 ("-")) = false := by
      simpa using hgood
    rw [show firstBadFlag (v :: v1 :: rest2) = firstBadFlag rest2 by
      simp [firstBadFlag, hflag, hgood']] at h
    rw [ArgumentParser.parseFlags.eq_def]
    simp only [Bool.or_eq_true, decide_eq_true_eq] at hflag
    rcases hflag with ((rfl | rfl) | rfl) | rfl
    · obtain ⟨c, hc, hpn, htm, hau⟩ := ih { config with template := jsToLower v1 } h
      have hl : lastFlagValues ("--template" :: v1 :: rest2) =
          ((match (lastFlagValues rest2).1 with | some w => some w | none => some v1),
           (lastFlagValues rest2).2) := by
        rw [lastFlagValues.eq_def]
        simp [hgood']
      refine ⟨c, by simp [hgood']; exact hc, hpn, ?_, by rw [hl]; exact hau⟩
      rw [hl]
      cases hr : (lastFlagValues rest2).1 with
      | none => rw [hr] at htm; simpa using htm
      | some w => rw [hr] at htm; simpa using htm
    · obtain ⟨c, hc, hpn, htm, hau⟩ := ih { config with template := jsToLower v1 } h
      have hl : lastFlagValues ("-t" :: v1 :: rest2) =
          ((match (lastFlagValues rest2).1 with | some w => some w | none => some v1),
           (lastFlagValues rest2).2) := by
        rw [lastFlagValues.eq_def]
        simp [hgood']
      refine ⟨c, by simp [hgood']; exact hc, hpn, ?_, by rw [hl]; exact hau⟩
      rw [hl]
      cases hr : (lastFlagValues rest2).1 with
      | none => rw [hr] at htm; simpa using htm
      | some w => rw [hr] at htm; simpa using htm
    · obtain ⟨c, hc, hpn, htm, hau⟩ := ih { config with author := v1 } h
      have hl : lastFlagValues ("--author" :: v1 :: rest2) =
          ((lastFlagValues rest2).1,
           (match (lastFlagValues rest2).2 with | some w => some w | none => some v1)) := by
        rw [lastFlagValues.eq_def]
        simp [hgood']
      refine ⟨c, by simp [hgood']; exact hc, hpn, by rw [hl]; exact htm, ?_⟩
      rw [hl]
      cases hr : (lastFlagValues rest2).2 with
      | none => rw [hr] at hau; simpa using hau
      | some w => rw [hr] at hau; simpa using hau
    · obtain ⟨c, hc, hpn, htm, hau⟩ := ih { config with author := v1 } h
      have hl : lastFlagValues ("-a" :: v1 :: rest2) =
          ((lastFlagValues rest2).1,
           (match (lastFlagValues rest2).2 with | some w => some w | none => some v1)) := by
        rw [lastFlagValues.eq_def]
        simp [hgood']
      refine ⟨c, by simp [hgood']; exact hc, hpn, by rw [hl]; exact htm, ?_⟩
      rw [hl]
      cases hr : (lastFlagValues rest2).2 with
      | none => rw [hr] at hau; simpa using hau
      | some w => rw [hr] at hau; simpa using hau
  | case5 v rest2 hflag ih =>
    intro config h
    simp only [Bool.or_eq_true, decide_eq_true_eq, not_or] at hflag
    obtain ⟨⟨⟨h1, h2⟩, h3⟩, h4⟩ := hflag
    rw [show firstBadFlag (v :: rest2) = firstBadFlag rest2 by
      rw [firstBadFlag.eq_def]
      simp [h1, h2, h3, h4]] at h
    have hl : lastFlagValues (v :: rest2) = lastFlagValues rest2 := by
      rw [lastFlagValues.eq_def]
      simp [h1, h2, h3, h4]
    rw [ArgumentParser.parseFlags.eq_def]
    rcases Decidable.em (v = "--git") with rfl | h5
    · obtain ⟨c, hc, hpn, htm, hau⟩ := ih { config with gitInit := true } h
      exact ⟨c, by simpa using hc, hpn, by rw [hl]; exact htm, by rw [hl]; exact hau⟩
    · rcases Decidable.em (v = "-g") with rfl | h6
      · obtain ⟨c, hc, hpn, htm, hau⟩ := ih { config with gitInit := true } h
        exact ⟨c, by simpa using hc, hpn, by rw [hl]; exact htm, by rw [hl]; exact hau⟩
      · obtain ⟨c, hc, hpn, htm, hau⟩ := ih config h
        exact ⟨c, by simp [h1, h2, h3, h4, h5, h6]; exact hc, hpn,
          by rw [hl]; exact htm, by rw [hl]; exact hau⟩

/-- C1 (amended): every package manifest written by `generate` has version
"1.0.0", the configured author (empty string when unset) and license "MIT"; its
name field equals the configured projectName for the basic, web, api and cli
templates, while the fullstack template's two per-side manifests carry the names
projectName ++ "-frontend" (frontend/package.json) and projectName ++ "-backend"
(backend/package.json). -/
theorem generate_manifest_fields :
    ∀ t ∈ templates, ∀ (name author today : String) (p : List String) (m : Manifest),
      (p, m) ∈ manifestsOf (generate t ⟨name, author⟩ today) →
      m.version = "1.0.0" ∧ m.author = author ∧ m.license = "MIT" ∧
      (t ≠ "fullstack" → m.name = name) ∧
      (t = "fullstack" →
        (p = ["frontend", "package.json"] ∧ m.name = name ++ "-frontend") ∨
        (p = ["backend", "package.json"] ∧ m.name = name ++ "-backend")) := by
  intro t ht name author today p m hm
  fin_cases ht
  · rw [manifestsOf_basic] at hm
    simp only [List.mem_singleton, Prod.mk.injEq] at hm
    obtain ⟨hp, rfl⟩ := hm
    exact ⟨rfl, jsOr_empty author, rfl, fun _ => rfl, fun hc => absurd hc (by decide)⟩
  · rw [manifestsOf_web] at hm
    simp only [List.mem_singleton, Prod.mk.injEq] at hm
    obtain ⟨hp, rfl⟩ := hm
    exact ⟨rfl, jsOr_empty author, rfl, fun _ => rfl, fun hc => absurd hc (by decide)⟩
  · rw [manifestsOf_api] at hm
    simp only [List.mem_singleton, Prod.mk.injEq] at hm
    obtain ⟨hp, rfl⟩ := hm
    exact ⟨rfl, jsOr_empty author, rfl, fun _ => rfl, fun hc => absurd hc (by decide)⟩
  · rw [manifestsOf_cli] at hm
    simp only [List.mem_singleton, Prod.mk.injEq] at hm
    obtain ⟨hp, rfl⟩ := hm
    exact ⟨rfl, jsOr_empty author, rfl, fun _ => rfl, fun hc => absurd hc (by decide)⟩
  · rw [manifestsOf_fullstack] at hm
    simp only [List.mem_cons, List.mem_singleton, Prod.mk.injEq, List.not_mem_nil,
      or_false] at hm
    rcases hm with ⟨hp, rfl⟩ | ⟨hp, rfl⟩
    · exact ⟨rfl, jsOr_empty author, rfl, fun hc => absurd rfl hc,
        fun _ => Or.inl ⟨hp, rfl⟩⟩
    · exact ⟨rfl, jsOr_empty author, rfl, fun hc => absurd rfl hc,
        fun _ => Or.inr ⟨hp, rfl⟩⟩

/-- C1 counterexample: with projectName "app", the fullstack template's manifests
are named "app-frontend" and "app-backend" — not "app", refuting the claim that
each manifest's name field equals the configured projectName. -/
theorem generate_manifest_name_counterexample :
    (manifestsOf (generate "fullstack" ⟨"app", ""⟩ "1/1/2026")).map (fun pm => pm.2.name) =
      ["app-frontend", "app-backend"] ∧
    ("app-frontend" : String) ≠ "app" ∧ ("app-backend" : String) ≠ "app" := by
  refine ⟨by decide, by decide, by decide⟩

/-- C1 witness: the amended theorem at the cli template with a concrete
configuration. -/
theorem generate_manifest_fields_witness :
    ("cli" ∈ templates) ∧
    ((["package.json"], cliManifest "app" "Ada") ∈
      manifestsOf (generate "cli" ⟨"app", "Ada"⟩ "1/1/2026")) ∧
    ((cliManifest "app" "Ada").version = "1.0.0" ∧
      (cliManifest "app" "Ada").author = "Ada" ∧
      (cliManifest "app" "Ada").license = "MIT" ∧
      (("cli" : String) ≠ "fullstack" → (cliManifest "app" "Ada").name = "app") ∧
      (("cli" : String) = "fullstack" →
        (["package.json"] = ["frontend", "package.json"] ∧
          (cliManifest "app" "Ada").name = "app" ++ "-frontend") ∨
        (["package.json"] = ["backend", "package.json"] ∧
          (cliManifest "app" "Ada").name = "app" ++ "-backend"))) :=
  ⟨by decide, by decide,
    generate_manifest_fields "cli" (by decide) "app" "Ada" "1/1/2026" ["package.json"]
      (cliManifest "app" "Ada") (by decide)⟩

/-- C2 (code bug): `initGit` restores the working directory only on the success
path; when a git command fails, the catch block warns but leaves the process in
the project directory, contradicting the required scoped directory-change
discipline. Evaluated at a failing input (every git command fails) and, for
contrast, at the all-success case, where the directory is restored. -/
theorem initGit_cwd_not_restored_on_failure :
    initGit "/work" "/work/app" (fun _ => false) = ("/work/app", false) ∧
    ("/work/app" : String) ≠ "/work" ∧
    initGit "/work" "/work/app" (fun _ => true) = ("/work", true) := by
  refine ⟨by decide, by decide, by decide⟩

/-- C3: for every project name matching the pattern and each of the five
templates, `generate` creates exactly the directories and writes exactly the
files of spec §4.3's table — the produced path lists are permutations of the
transcribed table entries, no entry more and no entry fewer. -/
theorem generate_matches_spec_table :
    ∀ t ∈ templates, ∀ (name author today : String), validName name = true →
      List.Perm (mkdirPaths (generate t ⟨name, author⟩ today)) (specDirs t) ∧
      List.Perm (writePaths (generate t ⟨name, author⟩ today)) (specFiles t) := by
  intro t ht name author today _
  fin_cases ht
  · exact ⟨by rw [mkdirPaths_basic]; decide, by rw [writePaths_basic]; decide⟩
  · exact ⟨by rw [mkdirPaths_web]; decide, by rw [writePaths_web]; decide⟩
  · exact ⟨by rw [mkdirPaths_api]; decide, by rw [writePaths_api]; decide⟩
  · exact ⟨by rw [mkdirPaths_cli]; decide, by rw [writePaths_cli]; decide⟩
  · exact ⟨by rw [mkdirPaths_fullstack]; decide, by rw [writePaths_fullstack]; decide⟩

/-- C3 witness: the theorem at the api template with a concrete valid name. -/
theorem generate_matches_spec_table_witness :
    ("api" ∈ templates) ∧ validName "demo-app" = true ∧
    (List.Perm (mkdirPaths (generate "api" ⟨"demo-app", ""⟩ "1/1/2026")) (specDirs "api") ∧
     List.Perm (writePaths (generate "api" ⟨"demo-app", ""⟩ "1/1/2026")) (specFiles "api")) :=
  ⟨by decide, by decide,
    generate_matches_spec_table "api" (by decide) "demo-app" "" "1/1/2026" (by decide)⟩

/-- C4: within one generation run no two written files share a relative path, and
every directory created and file written stays strictly inside the project root:
each produced path is a nonempty list of clean segments, so resolving it against
any root directory lands strictly below that root. -/
theorem generate_paths_inside_root :
    ∀ t ∈ templates, ∀ (name author today : String) (root : List String),
      (writePaths (generate t ⟨name, author⟩ today)).Nodup ∧
      ∀ p ∈ allPaths (generate t ⟨name, author⟩ today),
        p ≠ [] ∧ p.all cleanSeg = true ∧ insideRoot root (resolve root p) := by
  intro t ht name author today root
  fin_cases ht
  · refine ⟨by rw [writePaths_basic]; decide, ?_⟩
    rw [allPaths_basic]
    exact paths_ok_of_clean _ root (by decide)
  · refine ⟨by rw [writePaths_web]; decide, ?_⟩
    rw [allPaths_web]
    exact paths_ok_of_clean _ root (by decide)
  · refine ⟨by rw [writePaths_api]; decide, ?_⟩
    rw [allPaths_api]
    exact paths_ok_of_clean _ root (by decide)
  · refine ⟨by rw [writePaths_cli]; decide, ?_⟩
    rw [allPaths_cli]
    exact paths_ok_of_clean _ root (by decide)
  · refine ⟨by rw [writePaths_fullstack]; decide, ?_⟩
    rw [allPaths_fullstack]
    exact paths_ok_of_clean _ root (by decide)

/-- C4 witness: the theorem at the web template with concrete options and root. -/
theorem generate_paths_inside_root_witness :
    ("web" ∈ templates) ∧
    ((writePaths (generate "web" ⟨"demo", "Ada"⟩ "1/1/2026")).Nodup ∧
      ∀ p ∈ allPaths (generate "web" ⟨"demo", "Ada"⟩ "1/1/2026"),
        p ≠ [] ∧ p.all cleanSeg = true ∧
          insideRoot ["home", "user"] (resolve ["home", "user"] p)) :=
  ⟨by decide,
    generate_paths_inside_root "web" (by decide) "demo" "Ada" "1/1/2026" ["home", "user"]⟩

/-- C5: validateConfig checks the name pattern, then target-directory existence,
then template membership, in that order, and raises the first failing check's
error; in particular a configuration with both a bad name and an unknown
template fails with the invalid-name error (first conjunct, no condition on the
template). -/
theorem validateConfig_first_failure (fsExists : String → Bool) (cwd : String)
    (config : Config) :
    (validName config.projectName = false →
      validateConfig fsExists cwd config = .error invalidNameMsg) ∧
    (validName config.projectName = true →
      fsExists (cwd ++ "/" ++ config.projectName) = true →
      validateConfig fsExists cwd config = .error (dirExistsMsg config.projectName)) ∧
    (validName config.projectName = true →
      fsExists (cwd ++ "/" ++ config.projectName) = false →
      validTemplates.contains config.template = false →
      validateConfig fsExists cwd config = .error (invalidTemplateMsg config.template)) := by
  refine ⟨fun h => by simp [validateConfig, h],
    fun h1 h2 => by simp [validateConfig, h1, h2],
    fun h1 h2 h3 => by
      have h3m : config.template ∉ validTemplates := by simpa using h3
      simp [validateConfig, h1, h2, h3m]⟩

/-- C5 witness: a configuration whose name violates the pattern and whose
template is unknown fails with the invalid-name error, not the unknown-template
error. -/
theorem validateConfig_first_failure_witness :
    validName "x@y" = false ∧
    validateConfig (fun _ => false) "/work" ⟨"x@y", "nope", false, ""⟩ =
      .error invalidNameMsg :=
  ⟨by decide,
    (validateConfig_first_failure (fun _ => false) "/work" ⟨"x@y", "nope", false, ""⟩).1
      (by decide)⟩

/-- C6: when the parsed project name contains a character outside [A-Za-z0-9_-],
the run exits with code 1, reports the invalid-name error, performs no
filesystem action, and leaves the working directory unchanged. -/
theorem run_invalid_name_no_mutation :
    ∀ (args : List String) (fsExists : String → Bool) (cwd : String) (execOk : Nat → Bool)
      (today : String) (config : Config) (c : Char),
      (args.isEmpty || args.contains ("--help") || args.contains ("-h")) = false →
      ArgumentParser.parse args = .ok config →
      c ∈ config.projectName.toList →
      (c.isAlphanum || c = '_' || c = '-') = false →
      run args fsExists cwd execOk today =
        { exitCode := 1, actions := [], errorMsg := some invalidNameMsg, warnings := [],
          finalCwd := cwd } := by
  intro args fsExists cwd execOk today config c hhelp hparse hc hbad
  have hall : (config.projectName.toList.all
      (fun ch => ch.isAlphanum || ch = '_' || ch = '-')) = false := by
    cases hAll : config.projectName.toList.all
        (fun ch => ch.isAlphanum || ch = '_' || ch = '-') with
    | false => rfl
    | true => exact absurd (List.all_eq_true.mp hAll c hc) (by simp [hbad])
  have hvn : validName config.projectName = false := by
    unfold validName
    rw [hall, Bool.and_false]
  have hval : validateConfig fsExists cwd config = .error invalidNameMsg := by
    simp [validateConfig, hvn]
  unfold run
  rw [if_neg (by simpa using hhelp)]
  simp only [hparse, hval]

/-- C6 witness: the run of ["x@y"], whose name contains '@'. -/
theorem run_invalid_name_no_mutation_witness :
    ArgumentParser.parse ["x@y"] =
      .ok { projectName := "x@y", template := "basic", gitInit := false, author := "" } ∧
    ('@' ∈ ("x@y" : String).toList) ∧
    run ["x@y"] (fun _ => false) "/work" (fun _ => true) "1/1/2026" =
      { exitCode := 1, actions := [], errorMsg := some invalidNameMsg, warnings := [],
        finalCwd := "/work" } :=
  ⟨by decide, by decide,
    run_invalid_name_no_mutation ["x@y"] (fun _ => false) "/work" (fun _ => true) "1/1/2026"
      ⟨"x@y", "basic", false, ""⟩ '@' (by decide) (by decide) (by decide) (by decide)⟩

/-- C7: with gitInit set, failure of any version-control subprocess command is
caught locally: the run still exits with code 0, prints no fatal error, and logs
the git warning instead. -/
theorem run_git_failure_nonfatal :
    ∀ (args : List String) (fsExists : String → Bool) (cwd : String) (execOk : Nat → Bool)
      (today : String) (config : Config),
      (args.isEmpty || args.contains ("--help") || args.contains ("-h")) = false →
      ArgumentParser.parse args = .ok config →
      validateConfig fsExists cwd config = .ok () →
      config.gitInit = true →
      (execOk 0 && execOk 1 && execOk 2) = false →
      (run args fsExists cwd execOk today).exitCode = 0 ∧
      (run args fsExists cwd execOk today).errorMsg = none ∧
      (run args fsExists cwd execOk today).warnings = [gitWarnMsg] := by
  intro args fsExists cwd execOk today config hhelp hparse hval hgi hexec
  have hg := initGit_failed cwd (cwd ++ "/" ++ config.projectName) execOk hexec
  have hrun : run args fsExists cwd execOk today =
      { exitCode := 0,
        actions := FsAction.mkdir [config.projectName] ::
          (generate config.template
              { projectName := config.projectName, author := config.author } today).map
            (FsAction.underDir config.projectName),
        errorMsg := none, warnings := [gitWarnMsg],
        finalCwd := (initGit cwd (cwd ++ "/" ++ config.projectName) execOk).1 } := by
    unfold run
    rw [if_neg (by simpa using hhelp)]
    simp only [hparse, hval, hgi, if_true, hg, if_false, Bool.false_eq_true]
  rw [hrun]
  exact ⟨rfl, rfl, rfl⟩

/-- C7 witness: the run of ["app", "-g"] with every git command failing. -/
theorem run_git_failure_nonfatal_witness :
    ArgumentParser.parse ["app", "-g"] =
      .ok { projectName := "app", template := "basic", gitInit := true, author := "" } ∧
    ((run ["app", "-g"] (fun _ => false) "/work" (fun _ => false) "1/1/2026").exitCode = 0 ∧
     (run ["app", "-g"] (fun _ => false) "/work" (fun _ => false) "1/1/2026").errorMsg = none ∧
     (run ["app", "-g"] (fun _ => false) "/work" (fun _ => false) "1/1/2026").warnings =
       [gitWarnMsg]) :=
  ⟨by decide,
    run_git_failure_nonfatal ["app", "-g"] (fun _ => false) "/work" (fun _ => false)
      "1/1/2026" ⟨"app", "basic", true, ""⟩ (by decide) (by decide) (by decide) (by decide)
      (by decide)⟩

/-- C8 counterexample: in ["--template"] the --template flag occurs with its value
absent, yet parse raises the missing-project-name error — a message that names no
flag (it differs from both flag-value messages) — because the project-name check
runs before the flag scan. -/
theorem parse_missing_value_counterexample :
    firstBadFlag ["--template"] = some "--template" ∧
    ArgumentParser.parse ["--template"] = .error ArgumentParser.nameRequiredMsg ∧
    ArgumentParser.nameRequiredMsg ≠ ArgumentParser.templateValueMsg ∧
    ArgumentParser.nameRequiredMsg ≠ ArgumentParser.authorValueMsg := by
  refine ⟨by decide, by decide, by decide, by decide⟩

/-- C8 (amended): provided the argument list also contains a usable project-name
token (nonempty, not starting with '-'), if a --template (or -t) or --author (or -a)
occurrence lacks its value (following token absent, empty, or starting with '-'),
parse throws the missing-value error naming, in long form, the leftmost such
flag in scan order, and no configuration is returned. -/
theorem parse_missing_value_error :
    ∀ (args : List String) (n f : String),
      args.find? (fun a => !(jsStartsWith a ("-"))) = some n → n ≠ "" →
      firstBadFlag args = some f →
      ArgumentParser.parse args = .error (flagValueMsg f) := by
  intro args n f hfind hne hbad
  rw [parse_eq_parseFlags args n hfind hne]
  exact parseFlags_error_of_firstBad args _ f hbad

/-- C8 witness: the amended theorem at ["app", "--template"]. -/
theorem parse_missing_value_error_witness :
    (["app", "--template"].find? (fun a => !(jsStartsWith a ("-"))) = some "app") ∧
    firstBadFlag ["app", "--template"] = some "--template" ∧
    ArgumentParser.parse ["app", "--template"] = .error (flagValueMsg "--template") :=
  ⟨by decide, by decide,
    parse_missing_value_error ["app", "--template"] "app" "--template" (by decide)
      (by decide) (by decide)⟩

/-- C9: the manifest of the cli template carries a bin mapping keyed exactly by
the project name, whose value "./src/cli.js" is the relative path of the CLI
entry file src/cli.js written by the same run. -/
theorem cli_manifest_bin_entry :
    ∀ (name author today : String), validName name = true →
      (manifestsOf (generate "cli" ⟨name, author⟩ today)).map (fun pm => (pm.1, pm.2.bin)) =
        [(["package.json"], some (name, "./src/cli.js"))] ∧
      ["src", "cli.js"] ∈ writePaths (generate "cli" ⟨name, author⟩ today) ∧
      ("./src/cli.js" : String) = "./" ++ String.intercalate ("/") ["src", "cli.js"] := by
  intro name author today _
  refine ⟨rfl, ?_, by decide⟩
  rw [writePaths_cli]
  decide

/-- C9 witness: the theorem at projectName "app". -/
theorem cli_manifest_bin_entry_witness :
    validName "app" = true ∧
    ((manifestsOf (generate "cli" ⟨"app", ""⟩ "1/1/2026")).map (fun pm => (pm.1, pm.2.bin)) =
        [(["package.json"], some ("app", "./src/cli.js"))] ∧
      ["src", "cli.js"] ∈ writePaths (generate "cli" ⟨"app", ""⟩ "1/1/2026") ∧
      ("./src/cli.js" : String) = "./" ++ String.intercalate ("/") ["src", "cli.js"]) :=
  ⟨by decide, cli_manifest_bin_entry "app" "" "1/1/2026" (by decide)⟩

/-- C10 counterexample: parse(["--template", "WEB"]) returns the value token
verbatim as projectName but stores the template value lowercased ("web"), so the
same token is not returned as the flag's value; moreover a later occurrence of
the same flag overwrites the aliased value:
parse(["-t", "Web", "-t", "Api"]) returns projectName "Web" with template "api". -/
theorem parse_alias_counterexample :
    ArgumentParser.parse ["--template", "WEB"] =
      .ok { projectName := "WEB", template := "web", gitInit := false, author := "" } ∧
    ("web" : String) ≠ "WEB" ∧
    ArgumentParser.parse ["-t", "Web", "-t", "Api"] =
      .ok { projectName := "Web", template := "api", gitInit := false, author := "" } :=
  ⟨by decide, by decide, by decide⟩

/-- C10 (amended): when every value-taking flag of the list is well formed (each
followed by a nonempty token not starting with '-'), an argument list whose
first token not beginning with '-' is nonempty — including when that token is
the value of a preceding value-taking flag — parses successfully with that token
as projectName instead of failing with a missing-project-name error; the
returned configuration stores as template the lowercased value token of the last
--template (or -t) occurrence ("basic" when none) and as author the verbatim
value token of the last --author (or -a) occurrence ("" when none) — so the
aliased token is also returned as its flag's stored value, lowercased for
--template and verbatim for --author, exactly when its occurrence is its kind's
last; in particular parse(["--template", "web"]) returns projectName "web",
template "web", gitInit false, author "". -/
theorem parse_flag_value_as_project_name :
    (∀ (args : List String) (n : String),
        args.find? (fun a => !(jsStartsWith a ("-"))) = some n → n ≠ "" →
        firstBadFlag args = none →
        ∃ config, ArgumentParser.parse args = .ok config ∧ config.projectName = n ∧
          config.template = (match (lastFlagValues args).1 with
            | some v => jsToLower v
            | none => "basic") ∧
          config.author = (match (lastFlagValues args).2 with
            | some v => v
            | none => "")) ∧
    ArgumentParser.parse ["--template", "web"] =
      .ok { projectName := "web", template := "web", gitInit := false, author := "" } := by
  constructor
  · intro args n hfind hne hnone
    rw [parse_eq_parseFlags args n hfind hne]
    exact parseFlags_final_of_noBad args _ hnone
  · decide

/-- C10 witness: the amended theorem at ["--author", "bob"], whose only non-flag
token is the value of --author; the returned author is "bob" verbatim and the
template stays "basic". -/
theorem parse_flag_value_witness :
    firstBadFlag ["--author", "bob"] = none ∧
    (∃ config, ArgumentParser.parse ["--author", "bob"] = .ok config ∧
      config.projectName = "bob" ∧
      config.template = (match (lastFlagValues ["--author", "bob"]).1 with
        | some v => jsToLower v
        | none => "basic") ∧
      config.author = (match (lastFlagValues ["--author", "bob"]).2 with
        | some v => v
        | none => "")) :=
  ⟨by decide,
    parse_flag_value_as_project_name.1 ["--author", "bob"] "bob" (by decide) (by decide)
      (by decide)⟩

end Scaffold
